import Mathlib

/-!
# Verification of the SpeakerManager grouped-speaker synchronization engine

Shallow embedding of the SpeakerManager capability agent declared in
src/CapabilityAgents/SpeakerManager/include/SpeakerManager/SpeakerManager.h.
The repository ships only the class declaration; the bodies of the execute
functions live in the (absent) SpeakerManager.cpp, so the behaviour of each
operation is modelled from the specification (spec.md sections 4.1 to 4.5 and
section 7), faithful to the header's doc comments, and each such definition is
marked accordingly.

The engine owns a multimap from speaker type to endpoints (m_speakerMap), an
observer set (m_observers, a std::unordered_set keyed by pointer identity),
and emits three kinds of side effects on an accepted non-suppressed change:
a context-store update, an outbound VolumeChanged/MuteChanged event, and one
callback per registered observer.  Side effects are recorded in explicit logs
so that claims about notification suppression and fan-out are statable.
-/

namespace speakerManager

/-- SpeakerInterface::SpeakerSettings: the (volume, mute) pair an endpoint
reports.  Volume is an integer confined to a configured closed range. -/
structure SpeakerSettings where
  volume : Int
  mute : Bool
deriving DecidableEq

/-- Modelled from the spec: one registered endpoint (a SpeakerInterface
implementation).  The endpoint capability surface is getSettings, setVolume
and setMute, each synchronous and independently failable (spec section 6);
the three failure flags say which device calls fail on this endpoint. -/
structure Speaker where
  settings : SpeakerSettings
  setVolumeFails : Bool
  setMuteFails : Bool
  getSettingsFails : Bool
deriving DecidableEq

/-- SpeakerManagerObserverInterface::Source: the origin tag carried on every
notification, distinguishing a cloud directive from a local API call. -/
inductive Source where
  | DIRECTIVE
  | LOCAL_API
deriving DecidableEq

/-- SpeakerInterface::Type: an open, extensible enumeration of speaker
groups; modelled as Nat. -/
abbrev SpeakerType := Nat

/-- Identity of a registered observer (the shared pointer identity used by
m_observers in the source). -/
abbrev ObserverId := Nat

/-- The state of a SpeakerManager instance together with logs of its emitted
side effects.  Fields minVolume / maxVolume are the fixed closed volume
range, minUnmuteVolume is m_minUnmuteVolume, speakerMap is the m_speakerMap
multimap (insertion-ordered entries keyed by type), and observers models
m_observers: a std::unordered_set iterates in an element-determined hash
order, not in insertion order, so the set is kept as a duplicate-free list in
ascending identity order.  throwingObservers records which observer callbacks
raise an error when invoked (spec section 4.5: such faults are isolated).
contextUpdates, events and observerCalls are append-only logs of the
context-store publications, outbound events and observer invocations. -/
structure SpeakerManagerState where
  minVolume : Int
  maxVolume : Int
  minUnmuteVolume : Int
  speakerMap : List (SpeakerType × Speaker)
  observers : List ObserverId
  throwingObservers : List ObserverId
  contextUpdates : List (SpeakerType × SpeakerSettings)
  events : List (String × SpeakerSettings)
  observerCalls : List (ObserverId × Source × SpeakerType × SpeakerSettings)
deriving DecidableEq

/-- Endpoint device call: getSettings, failable (spec section 6). -/
def speakerGetSettings (sp : Speaker) : Option SpeakerSettings :=
  if sp.getSettingsFails then none else some sp.settings

/-- Endpoint device call: setVolume, failable; a failing call leaves the
endpoint state unchanged (spec sections 6 and 4.3). -/
def speakerSetVolume (v : Int) (sp : Speaker) : Option Speaker :=
  if sp.setVolumeFails then none
  else some { sp with settings := { sp.settings with volume := v } }

/-- Endpoint device call: setMute, failable; a failing call leaves the
endpoint state unchanged (spec sections 6 and 4.3). -/
def speakerSetMute (m : Bool) (sp : Speaker) : Option Speaker :=
  if sp.setMuteFails then none
  else some { sp with settings := { sp.settings with mute := m } }

/-- The ordered collection of endpoints registered under type t in a
multimap (spec section 4.1: endpointsOf). -/
def groupOf (t : SpeakerType) : List (SpeakerType × Speaker) → List Speaker
  | [] => []
  | p :: rest => if p.1 = t then p.2 :: groupOf t rest else groupOf t rest

/-- The endpoints of group t in the engine state. -/
def speakersOfType (st : SpeakerManagerState) (t : SpeakerType) : List Speaker :=
  groupOf t st.speakerMap

/-- Modelled from the spec (section 4.2): read every endpoint of a
collection; fail on an empty collection, on any failing read, or on any
disagreement; otherwise return the common settings. -/
def validateList : List Speaker → Option SpeakerSettings
  | [] => none
  | sp :: rest =>
    match speakerGetSettings sp with
    | none => none
    | some s =>
      if rest.all (fun sp' => decide (speakerGetSettings sp' = some s)) then some s else none

/-- Modelled from the spec (section 4.2, validateSpeakerSettingsConsistency
declared at SpeakerManager.h lines 306 to 315): validate that all endpoints
of the group report the same settings, returning the common value. -/
def validateSpeakerSettingsConsistency (st : SpeakerManagerState) (t : SpeakerType) :
    Option SpeakerSettings :=
  validateList (speakersOfType st t)

/-- Modelled from the spec (section 4.3): volume is clamped to the fixed
closed range; values outside saturate at the nearest boundary. -/
def clampVolume (st : SpeakerManagerState) (v : Int) : Int :=
  if v < st.minVolume then st.minVolume
  else if st.maxVolume < v then st.maxVolume
  else v

/-- Name of the outbound event sent after a volume change. -/
def volumeChangedEvent : String := "VolumeChanged"

/-- Name of the outbound event sent after a mute change. -/
def muteChangedEvent : String := "MuteChanged"

/-- Modelled from the spec (section 4.5, updateContextManager declared at
SpeakerManager.h lines 190 to 192): publish the new settings of the group to
the external context store. -/
def updateContextManager (t : SpeakerType) (s : SpeakerSettings)
    (st : SpeakerManagerState) : SpeakerManagerState :=
  { st with contextUpdates := st.contextUpdates ++ [(t, s)] }

/-- Modelled from the spec (section 4.5, executeSendSpeakerSettingsChangedEvent
declared at SpeakerManager.h lines 200 to 202): emit the named outbound
event carrying the final settings. -/
def executeSendSpeakerSettingsChangedEvent (eventName : String) (s : SpeakerSettings)
    (st : SpeakerManagerState) : SpeakerManagerState :=
  { st with events := st.events ++ [(eventName, s)] }

/-- Modelled from the spec (section 4.5, executeNotifyObserver declared at
SpeakerManager.h lines 301 to 304): invoke every registered observer with
(source, type, settings).  m_observers is a std::unordered_set, so the
iteration order is the container's element-determined order, and per the
spec an observer whose callback raises an error does not prevent the
remaining observers from being invoked, so every observer is invoked
regardless of throwingObservers. -/
def executeNotifyObserver (src : Source) (t : SpeakerType) (s : SpeakerSettings)
    (st : SpeakerManagerState) : SpeakerManagerState :=
  { st with observerCalls := st.observerCalls ++ st.observers.map (fun o => (o, src, t, s)) }

/-- Modelled from the spec (section 4.5, executeNotifySettingsChanged declared
at SpeakerManager.h lines 288 to 292): on an accepted non-suppressed change,
publish to the context store, emit the outbound event, and invoke the
observers. -/
def executeNotifySettingsChanged (s : SpeakerSettings) (eventName : String)
    (src : Source) (t : SpeakerType) (st : SpeakerManagerState) : SpeakerManagerState :=
  executeNotifyObserver src t s
    (executeSendSpeakerSettingsChangedEvent eventName s (updateContextManager t s st))

/-- Modelled from the spec (section 4.3): issue the device call f to every
endpoint of group t, in registration order, stopping at the first failing
call.  On failure the already-updated endpoints keep their new value (no
rollback) and the endpoints from the failing one on are untouched. -/
def applyToGroup (t : SpeakerType) (f : Speaker → Option Speaker) :
    List (SpeakerType × Speaker) → Bool × List (SpeakerType × Speaker)
  | [] => (true, [])
  | p :: rest =>
    if p.1 = t then
      match f p.2 with
      | none => (false, p :: rest)
      | some sp' =>
        let r := applyToGroup t f rest
        (r.1, (p.1, sp') :: r.2)
    else
      let r := applyToGroup t f rest
      (r.1, p :: r.2)

/-- Modelled from the spec (sections 4.3 and 4.5): the common tail of a
group-wide set operation.  If the device loop failed, report failure; else
run the consistency validator; if consistent, notify (unless suppressed by
forceNoNotifications) and report success, otherwise report failure. -/
def finishOperation (eventName : String) (forceNoNotifications : Bool) (src : Source)
    (t : SpeakerType) (ok : Bool) (st : SpeakerManagerState) : Bool × SpeakerManagerState :=
  if ok then
    match validateSpeakerSettingsConsistency st t with
    | some s =>
      if forceNoNotifications then (true, st)
      else (true, executeNotifySettingsChanged s eventName src t st)
    | none => (false, st)
  else (false, st)

/-- Modelled from the spec (section 4.3 SetVolume, executeSetVolume declared
at SpeakerManager.h lines 214 to 219): clamp the requested volume to the
fixed range, issue the device-level set-volume call to every endpoint of the
group (failing overall on any failing call, without rollback), validate the
post-state, then notify unless suppressed. -/
def executeSetVolume (t : SpeakerType) (volume : Int) (forceNoNotifications : Bool)
    (source : Source) (st : SpeakerManagerState) : Bool × SpeakerManagerState :=
  let r := applyToGroup t (speakerSetVolume (clampVolume st volume)) st.speakerMap
  finishOperation volumeChangedEvent forceNoNotifications source t r.1
    { st with speakerMap := r.2 }

/-- Modelled from the spec (section 4.3, executeRestoreVolume declared at
SpeakerManager.h lines 229 to 231): the silent restoration applied when
unmuting a group at volume zero; sets every endpoint to m_minUnmuteVolume
with notifications unconditionally suppressed (it never emits an event,
touches the context store, or notifies an observer). -/
def executeRestoreVolume (t : SpeakerType) (source : Source)
    (st : SpeakerManagerState) : Bool × SpeakerManagerState :=
  executeSetVolume t st.minUnmuteVolume true source st

/-- Modelled from the spec (section 4.3 AdjustVolume, executeAdjustVolume
declared at SpeakerManager.h lines 243 to 248): read the current group
settings via the validator (failing if inconsistent), then behave as
SetVolume with the absolute value current.volume + delta, which SetVolume
clamps to the fixed range. -/
def executeAdjustVolume (t : SpeakerType) (delta : Int) (forceNoNotifications : Bool)
    (source : Source) (st : SpeakerManagerState) : Bool × SpeakerManagerState :=
  match validateSpeakerSettingsConsistency st t with
  | none => (false, st)
  | some s => executeSetVolume t (s.volume + delta) forceNoNotifications source st

/-- Modelled from the spec (section 4.3 SetMute, executeSetMute declared at
SpeakerManager.h lines 260 to 265).  Muting: issue mute to every endpoint,
validate, notify.  Unmuting: read the current group settings via the
validator (failing if inconsistent); when the current volume is exactly
zero, first silently restore every endpoint to m_minUnmuteVolume; then issue
unmute to every endpoint, validate, and notify with the final settings
unless suppressed. -/
def executeSetMute (t : SpeakerType) (mute : Bool) (forceNoNotifications : Bool)
    (source : Source) (st : SpeakerManagerState) : Bool × SpeakerManagerState :=
  let pre : Bool × SpeakerManagerState :=
    if mute then (true, st)
    else
      match validateSpeakerSettingsConsistency st t with
      | none => (false, st)
      | some s =>
        if s.volume = 0 then executeRestoreVolume t source st else (true, st)
  if pre.1 then
    let r := applyToGroup t (speakerSetMute mute) pre.2.speakerMap
    finishOperation muteChangedEvent forceNoNotifications source t r.1
      { pre.2 with speakerMap := r.2 }
  else (false, pre.2)

/-- Modelled from the spec (section 4.3 GetSettings, executeGetSpeakerSettings
declared at SpeakerManager.h lines 275 to 277): a pure read delegating to
the validator; fails if the group is empty or inconsistent, and never
notifies. -/
def executeGetSpeakerSettings (st : SpeakerManagerState) (t : SpeakerType) :
    Option SpeakerSettings :=
  validateSpeakerSettingsConsistency st t

/-- addSpeaker (SpeakerManager.h line 122): register one more endpoint under
its type; duplicate insertion is permitted and simply grows the multimap
entry range for that type (spec section 4.1). -/
def addSpeaker (t : SpeakerType) (sp : Speaker) (st : SpeakerManagerState) :
    SpeakerManagerState :=
  { st with speakerMap := st.speakerMap ++ [(t, sp)] }

/-- Insertion into the observer container.  m_observers is a
std::unordered_set keyed by pointer identity (SpeakerManager.h line 333):
inserting an already-present identity leaves the set unchanged, and the
container keeps its elements in an element-determined hash order (here,
ascending identity), not in insertion order. -/
def insertObserver (o : ObserverId) : List ObserverId → List ObserverId
  | [] => [o]
  | x :: xs => if o < x then o :: x :: xs else if o = x then x :: xs else x :: insertObserver o xs

/-- addSpeakerManagerObserver (SpeakerManager.h lines 118 to 119): insert the
observer into m_observers by identity. -/
def addSpeakerManagerObserver (o : ObserverId) (st : SpeakerManagerState) :
    SpeakerManagerState :=
  { st with observers := insertObserver o st.observers }

/-- removeSpeakerManagerObserver (SpeakerManager.h lines 120 to 121): erase
the observer from m_observers; removing an absent observer is a no-op. -/
def removeSpeakerManagerObserver (o : ObserverId) (st : SpeakerManagerState) :
    SpeakerManagerState :=
  { st with observers := st.observers.filter (fun x => x != o) }

/-- Modelled from the spec: the lower bound of the fixed closed volume range
used at construction (the concrete value is representative; the claims are
proved for arbitrary configured bounds). -/
def AVS_SET_VOLUME_MIN : Int := 0

/-- Modelled from the spec: the upper bound of the fixed closed volume range
used at construction. -/
def AVS_SET_VOLUME_MAX : Int := 100

/-- Modelled from the spec: the fixed Minimum-Unmute-Volume configuration
value passed to the constructor (SpeakerManager.h line 146). -/
def MIN_UNMUTE_VOLUME : Int := 10

/-- Modelled from the spec and the create declaration (SpeakerManager.h lines
75 to 79): create validates its collaborators; if contextManager,
messageSender or exceptionEncounteredSender is null it returns null and
constructs nothing; otherwise it constructs the engine with the given
speakers registered, no observers, and no emitted side effects.  The three
collaborator handles are modelled as nullable references. -/
def create (speakers : List (SpeakerType × Speaker))
    (contextManager messageSender exceptionEncounteredSender : Option Nat) :
    Option SpeakerManagerState :=
  match contextManager, messageSender, exceptionEncounteredSender with
  | some _, some _, some _ =>
    some
      { minVolume := AVS_SET_VOLUME_MIN
        maxVolume := AVS_SET_VOLUME_MAX
        minUnmuteVolume := MIN_UNMUTE_VOLUME
        speakerMap := speakers
        observers := []
        throwingObservers := []
        contextUpdates := []
        events := []
        observerCalls := [] }
  | _, _, _ => none

/-- Iterated zero-delta adjustVolume: runs executeAdjustVolume with delta 0
the given number of times, stopping (and reporting failure) at the first
failing call. -/
def repeatAdjustZero (t : SpeakerType) (force : Bool) (src : Source) :
    Nat → SpeakerManagerState → Bool × SpeakerManagerState
  | 0, st => (true, st)
  | n + 1, st =>
    let r := executeAdjustVolume t 0 force src st
    if r.1 then repeatAdjustZero t force src n r.2 else (false, r.2)

/-- A healthy demonstration endpoint: reports the given settings and fails no
device call. -/
def mkSpeaker (v : Int) (m : Bool) : Speaker :=
  { settings := { volume := v, mute := m }, setVolumeFails := false,
    setMuteFails := false, getSettingsFails := false }

/-- Demonstration engine: two healthy endpoints of type 0 at volume 10,
unmuted, one endpoint of type 1, and two registered observers. -/
def demoState : SpeakerManagerState :=
  { minVolume := 0, maxVolume := 100, minUnmuteVolume := 20,
    speakerMap := [(0, mkSpeaker 10 false), (0, mkSpeaker 10 false), (1, mkSpeaker 3 true)],
    observers := insertObserver 1 (insertObserver 2 []),
    throwingObservers := [], contextUpdates := [], events := [], observerCalls := [] }

/-- Demonstration engine for the zero-volume unmute scenario: two healthy
endpoints of type 0 at volume 0, muted, Minimum-Unmute-Volume 20. -/
def demoStateZero : SpeakerManagerState :=
  { demoState with speakerMap := [(0, mkSpeaker 0 true), (0, mkSpeaker 0 true)] }

/-- Demonstration engine with an empty group 0. -/
def demoStateEmpty : SpeakerManagerState :=
  { demoState with speakerMap := [(1, mkSpeaker 3 true)] }

/-- Demonstration engine in which the second of three endpoints of group 0
fails its set-volume and set-mute device calls. -/
def demoStateFailing : SpeakerManagerState :=
  { demoState with
    speakerMap :=
      [(0, mkSpeaker 10 false),
       (0, { mkSpeaker 10 false with setVolumeFails := true, setMuteFails := true }),
       (0, mkSpeaker 10 false)] }

/-- A consistent single-endpoint group 0 whose endpoint reports settings but
fails its set-volume device call. -/
def demoStateConsistentFailing : SpeakerManagerState :=
  { demoState with speakerMap := [(0, { mkSpeaker 10 false with setVolumeFails := true })] }

/-- A consistent group 0 at volume 0, muted, whose second endpoint fails its
set-volume device call (so the silent unmute restoration fails on it). -/
def demoStateZeroFailingVol : SpeakerManagerState :=
  { demoState with speakerMap :=
      [(0, mkSpeaker 0 true), (0, { mkSpeaker 0 true with setVolumeFails := true })] }

/-- A consistent group 0 at volume 0, muted, whose second endpoint fails its
set-mute device call (the silent restoration succeeds, the unmute fails). -/
def demoStateZeroFailingMute : SpeakerManagerState :=
  { demoState with speakerMap :=
      [(0, mkSpeaker 0 true), (0, { mkSpeaker 0 true with setMuteFails := true })] }

/-- A consistent single-endpoint group 0 whose endpoint reports a volume
above the configured maximum (range 0 to 100). -/
def demoStateOutOfRange : SpeakerManagerState :=
  { demoState with speakerMap := [(0, mkSpeaker 200 false)] }

/-- Demonstration engine built by registering observer 2 first and observer 1
second; the observer container ends up iterating 1 before 2. -/
def demoStateObsOrder : SpeakerManagerState :=
  addSpeakerManagerObserver 1
    (addSpeakerManagerObserver 2
      { demoState with observers := [], speakerMap := [(0, mkSpeaker 5 false)] })

/-- The engine create builds when all collaborators are present and one
speaker of type 0 is registered. -/
def createdState : SpeakerManagerState :=
  { minVolume := AVS_SET_VOLUME_MIN, maxVolume := AVS_SET_VOLUME_MAX,
    minUnmuteVolume := MIN_UNMUTE_VOLUME, speakerMap := [(0, mkSpeaker 1 false)],
    observers := [], throwingObservers := [], contextUpdates := [], events := [],
    observerCalls := [] }

end speakerManager

namespace speakerManager

/-! ## Basic lemmas about device calls, groups and the validator -/

theorem speakerGetSettings_eq_some {sp : Speaker} {s : SpeakerSettings} :
    speakerGetSettings sp = some s ↔ sp.getSettingsFails = false ∧ sp.settings = s := by
  cases h : sp.getSettingsFails <;> simp [speakerGetSettings, h]

theorem speakerSetVolume_isSome {v : Int} {sp : Speaker} :
    (speakerSetVolume v sp).isSome = true ↔ sp.setVolumeFails = false := by
  cases h : sp.setVolumeFails <;> simp [speakerSetVolume, h]

theorem speakerSetMute_isSome {m : Bool} {sp : Speaker} :
    (speakerSetMute m sp).isSome = true ↔ sp.setMuteFails = false := by
  cases h : sp.setMuteFails <;> simp [speakerSetMute, h]

theorem speakerSetVolume_getD {v : Int} {sp : Speaker} (h : sp.setVolumeFails = false) :
    (speakerSetVolume v sp).getD sp = { sp with settings := { sp.settings with volume := v } } := by
  simp [speakerSetVolume, h]

theorem speakerSetMute_getD {m : Bool} {sp : Speaker} (h : sp.setMuteFails = false) :
    (speakerSetMute m sp).getD sp = { sp with settings := { sp.settings with mute := m } } := by
  simp [speakerSetMute, h]

theorem groupOf_nil (t : SpeakerType) : groupOf t [] = [] := rfl

theorem groupOf_cons (t : SpeakerType) (p : SpeakerType × Speaker)
    (rest : List (SpeakerType × Speaker)) :
    groupOf t (p :: rest) = if p.1 = t then p.2 :: groupOf t rest else groupOf t rest := rfl

theorem validateList_sound {l : List Speaker} {s : SpeakerSettings}
    (h : validateList l = some s) : ∀ sp ∈ l, speakerGetSettings sp = some s := by
  cases l with
  | nil => cases h
  | cons a rest =>
    cases hr : speakerGetSettings a with
    | none => simp [validateList, hr] at h
    | some s0 =>
      simp only [validateList, hr] at h
      split at h
      case isTrue hall =>
        have hs : s0 = s := by injection h
        subst hs
        simp only [List.all_eq_true, decide_eq_true_eq] at hall
        intro sp hm
        rcases List.mem_cons.1 hm with rfl | hm'
        · exact hr
        · exact hall sp hm'
      case isFalse => cases h

theorem validateList_of_uniform {l : List Speaker} {s : SpeakerSettings}
    (hne : l ≠ []) (h : ∀ sp ∈ l, speakerGetSettings sp = some s) :
    validateList l = some s := by
  cases l with
  | nil => exact absurd rfl hne
  | cons a rest =>
    have ha : speakerGetSettings a = some s := h a (List.mem_cons_self a rest)
    have hall : rest.all (fun sp' => decide (speakerGetSettings sp' = some s)) = true := by
      simp only [List.all_eq_true, decide_eq_true_eq]
      intro sp hm
      exact h sp (List.mem_cons_of_mem a hm)
    simp [validateList, ha, hall]

theorem validate_eq_none_of_empty {st : SpeakerManagerState} {t : SpeakerType}
    (h : speakersOfType st t = []) : validateSpeakerSettingsConsistency st t = none := by
  unfold validateSpeakerSettingsConsistency
  rw [h]
  rfl

theorem validate_ne_nil {st : SpeakerManagerState} {t : SpeakerType} {s : SpeakerSettings}
    (h : validateSpeakerSettingsConsistency st t = some s) : speakersOfType st t ≠ [] := by
  intro he
  rw [validate_eq_none_of_empty he] at h
  cases h

theorem validate_sound {st : SpeakerManagerState} {t : SpeakerType} {s : SpeakerSettings}
    (h : validateSpeakerSettingsConsistency st t = some s) :
    ∀ sp ∈ speakersOfType st t, speakerGetSettings sp = some s :=
  validateList_sound h

theorem validate_of_uniform {st : SpeakerManagerState} {t : SpeakerType} {s : SpeakerSettings}
    (hne : speakersOfType st t ≠ [])
    (h : ∀ sp ∈ speakersOfType st t, speakerGetSettings sp = some s) :
    validateSpeakerSettingsConsistency st t = some s :=
  validateList_of_uniform hne h

theorem validate_congr {st1 st2 : SpeakerManagerState} (t : SpeakerType)
    (h : st1.speakerMap = st2.speakerMap) :
    validateSpeakerSettingsConsistency st1 t = validateSpeakerSettingsConsistency st2 t := by
  unfold validateSpeakerSettingsConsistency speakersOfType
  rw [h]

/-! ## Lemmas about the group-wide device-call loop -/

theorem applyToGroup_fst (t : SpeakerType) (f : Speaker → Option Speaker)
    (l : List (SpeakerType × Speaker)) :
    (applyToGroup t f l).1 = true ↔ ∀ sp ∈ groupOf t l, (f sp).isSome = true := by
  induction l with
  | nil => simp [applyToGroup, groupOf]
  | cons p rest ih =>
    obtain ⟨pt, psp⟩ := p
    by_cases hp : pt = t
    · subst hp
      cases hf : f psp with
      | none => simp [applyToGroup, groupOf, hf]
      | some sp' =>
        simp only [applyToGroup, groupOf, if_true, eq_self_iff_true, hf]
        simp only [List.mem_cons]
        constructor
        · intro h sp hm
          rcases hm with rfl | hm'
          · rw [hf]; rfl
          · exact (ih.1 (by simpa using h)) sp hm'
        · intro h
          simpa using ih.2 (fun sp hm => h sp (Or.inr hm))
    · simp only [applyToGroup, groupOf, hp, if_false]
      simpa using ih

theorem applyToGroup_group_of_true (t : SpeakerType) (f : Speaker → Option Speaker)
    (l : List (SpeakerType × Speaker)) (h : (applyToGroup t f l).1 = true) :
    groupOf t (applyToGroup t f l).2 = (groupOf t l).map (fun sp => (f sp).getD sp) := by
  induction l with
  | nil => simp [applyToGroup, groupOf]
  | cons p rest ih =>
    obtain ⟨pt, psp⟩ := p
    by_cases hp : pt = t
    · subst hp
      cases hf : f psp with
      | none =>
        rw [applyToGroup] at h
        simp [hf] at h
      | some sp' =>
        rw [applyToGroup] at h
        simp [hf] at h
        simp [applyToGroup, groupOf, hf, ih h]
    · rw [applyToGroup] at h
      simp [hp] at h
      simp [applyToGroup, groupOf, hp, ih h]

theorem applyToGroup_fail (t : SpeakerType) (f : Speaker → Option Speaker)
    (l : List (SpeakerType × Speaker)) :
    ∀ (pre : List Speaker) (x : Speaker) (post : List Speaker),
      groupOf t l = pre ++ x :: post →
      (∀ sp ∈ pre, (f sp).isSome = true) →
      f x = none →
      (applyToGroup t f l).1 = false ∧
        groupOf t (applyToGroup t f l).2 =
          pre.map (fun sp => (f sp).getD sp) ++ x :: post := by
  induction l with
  | nil =>
    intro pre x post hg _ _
    rw [groupOf_nil] at hg
    exact absurd hg.symm (List.append_ne_nil_of_right_ne_nil pre (by simp))
  | cons p rest ih =>
    intro pre x post hg hpre hx
    obtain ⟨pt, psp⟩ := p
    by_cases hp : pt = t
    · subst hp
      rw [groupOf_cons] at hg
      simp only [eq_self_iff_true, if_true] at hg
      cases pre with
      | nil =>
        simp only [List.nil_append] at hg
        have hx1 : psp = x := by injection hg
        have hrest : groupOf pt rest = post := by injection hg
        subst hx1
        refine ⟨by simp [applyToGroup, hx], ?_⟩
        simp [applyToGroup, groupOf, hx, hrest]
      | cons a pre' =>
        have ha : psp = a := by injection hg
        have hrest : groupOf pt rest = pre' ++ x :: post := by injection hg
        subst ha
        have hfa : (f psp).isSome = true := hpre psp (List.mem_cons_self _ _)
        obtain ⟨a', hfa'⟩ := Option.isSome_iff_exists.1 hfa
        obtain ⟨ih1, ih2⟩ :=
          ih pre' x post hrest (fun sp hm => hpre sp (List.mem_cons_of_mem _ hm)) hx
        refine ⟨by simp [applyToGroup, hfa', ih1], ?_⟩
        simp [applyToGroup, groupOf, hfa', ih2]
    · rw [groupOf_cons] at hg
      simp only [hp, if_false] at hg
      rw [applyToGroup]
      simp only [hp, if_false]
      obtain ⟨ih1, ih2⟩ := ih pre x post hg hpre hx
      refine ⟨by simpa using ih1, ?_⟩
      simp only [groupOf, hp, if_false]
      simpa using ih2

theorem applyToGroup_id (t : SpeakerType) (f : Speaker → Option Speaker)
    (l : List (SpeakerType × Speaker)) (h : ∀ sp ∈ groupOf t l, f sp = some sp) :
    applyToGroup t f l = (true, l) := by
  induction l with
  | nil => rfl
  | cons p rest ih =>
    obtain ⟨pt, psp⟩ := p
    by_cases hp : pt = t
    · subst hp
      have hfp : f psp = some psp := by
        apply h
        rw [groupOf_cons]
        simp
      have ihr : applyToGroup pt f rest = (true, rest) := by
        apply ih
        intro sp hm
        apply h
        rw [groupOf_cons]
        simp [hm]
      rw [applyToGroup]
      simp [hfp, ihr]
    · have ihr : applyToGroup t f rest = (true, rest) := by
        apply ih
        intro sp hm
        apply h
        rw [groupOf_cons]
        simp [hp, hm]
      rw [applyToGroup]
      simp [hp, ihr]

/-! ## Lemmas about notification fan-out and the operation tail -/

theorem notify_def (s : SpeakerSettings) (ev : String) (src : Source) (t : SpeakerType)
    (st : SpeakerManagerState) :
    executeNotifySettingsChanged s ev src t st =
      { st with
        contextUpdates := st.contextUpdates ++ [(t, s)],
        events := st.events ++ [(ev, s)],
        observerCalls := st.observerCalls ++ st.observers.map (fun o => (o, src, t, s)) } := rfl

theorem finish_fst (ev : String) (force : Bool) (src : Source) (t : SpeakerType)
    (ok : Bool) (st : SpeakerManagerState) :
    (finishOperation ev force src t ok st).1 =
      (ok && (validateSpeakerSettingsConsistency st t).isSome) := by
  unfold finishOperation
  cases ok with
  | false => simp
  | true =>
    simp only [if_true, Bool.true_and]
    cases hv : validateSpeakerSettingsConsistency st t with
    | none => simp
    | some s => cases force <;> simp

theorem finish_speakerMap (ev : String) (force : Bool) (src : Source) (t : SpeakerType)
    (ok : Bool) (st : SpeakerManagerState) :
    (finishOperation ev force src t ok st).2.speakerMap = st.speakerMap := by
  unfold finishOperation
  cases ok with
  | false => rfl
  | true =>
    simp only [if_true]
    cases hv : validateSpeakerSettingsConsistency st t with
    | none => rfl
    | some s => cases force <;> rfl

theorem finish_preserves (ev : String) (force : Bool) (src : Source) (t : SpeakerType)
    (ok : Bool) (st : SpeakerManagerState) :
    (finishOperation ev force src t ok st).2.minVolume = st.minVolume ∧
    (finishOperation ev force src t ok st).2.maxVolume = st.maxVolume ∧
    (finishOperation ev force src t ok st).2.minUnmuteVolume = st.minUnmuteVolume ∧
    (finishOperation ev force src t ok st).2.observers = st.observers ∧
    (finishOperation ev force src t ok st).2.throwingObservers = st.throwingObservers := by
  unfold finishOperation
  cases ok with
  | false => exact ⟨rfl, rfl, rfl, rfl, rfl⟩
  | true =>
    simp only [if_true]
    cases hv : validateSpeakerSettingsConsistency st t with
    | none => exact ⟨rfl, rfl, rfl, rfl, rfl⟩
    | some s => cases force <;> exact ⟨rfl, rfl, rfl, rfl, rfl⟩

theorem finish_force_snd (ev : String) (src : Source) (t : SpeakerType)
    (ok : Bool) (st : SpeakerManagerState) :
    (finishOperation ev true src t ok st).2 = st := by
  unfold finishOperation
  cases ok with
  | false => rfl
  | true =>
    simp only [if_true]
    cases hv : validateSpeakerSettingsConsistency st t with
    | none => rfl
    | some s => rfl

theorem finish_true {ev : String} {force : Bool} {src : Source} {t : SpeakerType}
    {ok : Bool} {st1 st2 : SpeakerManagerState}
    (h : finishOperation ev force src t ok st1 = (true, st2)) :
    ok = true ∧ ∃ s, validateSpeakerSettingsConsistency st1 t = some s ∧
      ((force = true ∧ st2 = st1) ∨
       (force = false ∧ st2 = executeNotifySettingsChanged s ev src t st1)) := by
  unfold finishOperation at h
  cases ok with
  | false => simp at h
  | true =>
    simp only [if_true] at h
    cases hv : validateSpeakerSettingsConsistency st1 t with
    | none => rw [hv] at h; simp at h
    | some s =>
      rw [hv] at h
      refine ⟨rfl, s, rfl, ?_⟩
      cases force with
      | true =>
        simp only [if_true] at h
        exact Or.inl ⟨rfl, (Prod.mk.injEq _ _ _ _ ▸ h).2.symm⟩
      | false =>
        simp only [if_false] at h
        exact Or.inr ⟨rfl, (Prod.mk.injEq _ _ _ _ ▸ h).2.symm⟩

theorem finish_false {ev : String} {force : Bool} {src : Source} {t : SpeakerType}
    {ok : Bool} {st1 st2 : SpeakerManagerState}
    (h : finishOperation ev force src t ok st1 = (false, st2)) : st2 = st1 := by
  unfold finishOperation at h
  cases ok with
  | false => exact ((Prod.mk.injEq _ _ _ _ ▸ h).2).symm
  | true =>
    simp only [if_true] at h
    cases hv : validateSpeakerSettingsConsistency st1 t with
    | none => rw [hv] at h; exact ((Prod.mk.injEq _ _ _ _ ▸ h).2).symm
    | some s =>
      rw [hv] at h
      cases force <;> simp at h

/-! ## Lemmas about the individual operations -/

theorem map_congr_mem {α β : Type} {l : List α} {f g : α → β}
    (h : ∀ a ∈ l, f a = g a) : l.map f = l.map g := by
  induction l with
  | nil => rfl
  | cons a rest ih =>
    simp only [List.map_cons, h a (List.mem_cons_self _ _)]
    rw [ih (fun x hx => h x (List.mem_cons_of_mem _ hx))]

theorem executeSetVolume_def (t : SpeakerType) (v : Int) (f : Bool) (src : Source)
    (st : SpeakerManagerState) :
    executeSetVolume t v f src st =
      finishOperation volumeChangedEvent f src t
        (applyToGroup t (speakerSetVolume (clampVolume st v)) st.speakerMap).1
        { st with
          speakerMap := (applyToGroup t (speakerSetVolume (clampVolume st v)) st.speakerMap).2 } :=
  rfl

theorem setVolume_fst (t : SpeakerType) (v : Int) (f : Bool) (src : Source)
    (st : SpeakerManagerState) :
    (executeSetVolume t v f src st).1 =
      ((applyToGroup t (speakerSetVolume (clampVolume st v)) st.speakerMap).1 &&
       (validateSpeakerSettingsConsistency
         { st with
           speakerMap :=
             (applyToGroup t (speakerSetVolume (clampVolume st v)) st.speakerMap).2 } t).isSome) := by
  rw [executeSetVolume_def, finish_fst]

theorem setVolume_snd_force (t : SpeakerType) (v : Int) (src : Source)
    (st : SpeakerManagerState) :
    (executeSetVolume t v true src st).2 =
      { st with
        speakerMap := (applyToGroup t (speakerSetVolume (clampVolume st v)) st.speakerMap).2 } := by
  rw [executeSetVolume_def]
  exact finish_force_snd _ _ _ _ _

theorem setVolume_preserves (t : SpeakerType) (v : Int) (f : Bool) (src : Source)
    (st : SpeakerManagerState) :
    (executeSetVolume t v f src st).2.minVolume = st.minVolume ∧
    (executeSetVolume t v f src st).2.maxVolume = st.maxVolume ∧
    (executeSetVolume t v f src st).2.minUnmuteVolume = st.minUnmuteVolume ∧
    (executeSetVolume t v f src st).2.observers = st.observers ∧
    (executeSetVolume t v f src st).2.throwingObservers = st.throwingObservers := by
  rw [executeSetVolume_def]
  exact finish_preserves _ _ _ _ _ _

theorem setVolume_true {t : SpeakerType} {v : Int} {f : Bool} {src : Source}
    {st st' : SpeakerManagerState}
    (h : executeSetVolume t v f src st = (true, st')) :
    ∃ s, validateSpeakerSettingsConsistency st' t = some s ∧
      speakersOfType st' t = (speakersOfType st t).map
        (fun sp => { sp with settings := { sp.settings with volume := clampVolume st v } }) ∧
      (∀ sp ∈ speakersOfType st t, sp.setVolumeFails = false) := by
  rw [executeSetVolume_def] at h
  obtain ⟨hok, s, hv1, hcase⟩ := finish_true h
  have hflags : ∀ sp ∈ speakersOfType st t, sp.setVolumeFails = false := by
    intro sp hm
    exact speakerSetVolume_isSome.1 ((applyToGroup_fst _ _ _).1 hok sp hm)
  have hsm : st'.speakerMap =
      (applyToGroup t (speakerSetVolume (clampVolume st v)) st.speakerMap).2 := by
    rcases hcase with ⟨_, rfl⟩ | ⟨_, rfl⟩
    · rfl
    · rfl
  have hgroup : speakersOfType st' t = (speakersOfType st t).map
      (fun sp => { sp with settings := { sp.settings with volume := clampVolume st v } }) := by
    show groupOf t st'.speakerMap = _
    rw [hsm, applyToGroup_group_of_true _ _ _ hok]
    exact map_congr_mem (fun sp hm => speakerSetVolume_getD (hflags sp hm))
  refine ⟨s, ?_, hgroup, hflags⟩
  have : validateSpeakerSettingsConsistency st' t =
      validateSpeakerSettingsConsistency
        { st with
          speakerMap :=
            (applyToGroup t (speakerSetVolume (clampVolume st v)) st.speakerMap).2 } t :=
    validate_congr _ hsm
  rw [this]
  exact hv1

theorem setVolume_false_notify {t : SpeakerType} {v : Int} {src : Source}
    {st st' : SpeakerManagerState}
    (h : executeSetVolume t v false src st = (true, st')) :
    ∃ s, validateSpeakerSettingsConsistency st' t = some s ∧
      st'.events = st.events ++ [(volumeChangedEvent, s)] ∧
      st'.contextUpdates = st.contextUpdates ++ [(t, s)] ∧
      st'.observerCalls = st.observerCalls ++ st.observers.map (fun o => (o, src, t, s)) := by
  rw [executeSetVolume_def] at h
  obtain ⟨hok, s, hv1, hcase⟩ := finish_true h
  rcases hcase with ⟨hc, _⟩ | ⟨_, rfl⟩
  · cases hc
  · refine ⟨s, ?_, by simp [notify_def], by simp [notify_def], by simp [notify_def]⟩
    exact Eq.trans (validate_congr t rfl) hv1

theorem executeAdjustVolume_none {t : SpeakerType} {d : Int} {f : Bool} {src : Source}
    {st : SpeakerManagerState}
    (hv : validateSpeakerSettingsConsistency st t = none) :
    executeAdjustVolume t d f src st = (false, st) := by
  unfold executeAdjustVolume
  rw [hv]

theorem executeAdjustVolume_some {t : SpeakerType} {d : Int} {f : Bool} {src : Source}
    {st : SpeakerManagerState} {s : SpeakerSettings}
    (hv : validateSpeakerSettingsConsistency st t = some s) :
    executeAdjustVolume t d f src st = executeSetVolume t (s.volume + d) f src st := by
  unfold executeAdjustVolume
  rw [hv]

theorem executeSetMute_mute_def (t : SpeakerType) (f : Bool) (src : Source)
    (st : SpeakerManagerState) :
    executeSetMute t true f src st =
      finishOperation muteChangedEvent f src t
        (applyToGroup t (speakerSetMute true) st.speakerMap).1
        { st with speakerMap := (applyToGroup t (speakerSetMute true) st.speakerMap).2 } :=
  rfl

theorem executeSetMute_unmute_none {t : SpeakerType} {f : Bool} {src : Source}
    {st : SpeakerManagerState}
    (hv : validateSpeakerSettingsConsistency st t = none) :
    executeSetMute t false f src st = (false, st) := by
  unfold executeSetMute
  rw [hv]
  rfl

theorem executeSetMute_unmute_nonzero {t : SpeakerType} {f : Bool} {src : Source}
    {st : SpeakerManagerState} {s : SpeakerSettings}
    (hv : validateSpeakerSettingsConsistency st t = some s) (hnz : ¬s.volume = 0) :
    executeSetMute t false f src st =
      finishOperation muteChangedEvent f src t
        (applyToGroup t (speakerSetMute false) st.speakerMap).1
        { st with speakerMap := (applyToGroup t (speakerSetMute false) st.speakerMap).2 } := by
  unfold executeSetMute
  rw [hv]
  simp [hnz]

theorem executeSetMute_unmute_zero_fail {t : SpeakerType} {f : Bool} {src : Source}
    {st st1 : SpeakerManagerState} {s : SpeakerSettings}
    (hv : validateSpeakerSettingsConsistency st t = some s) (hz : s.volume = 0)
    (hr : executeRestoreVolume t src st = (false, st1)) :
    executeSetMute t false f src st = (false, st1) := by
  unfold executeSetMute
  rw [hv]
  simp [hz, hr]

theorem executeSetMute_unmute_zero_ok {t : SpeakerType} {f : Bool} {src : Source}
    {st st1 : SpeakerManagerState} {s : SpeakerSettings}
    (hv : validateSpeakerSettingsConsistency st t = some s) (hz : s.volume = 0)
    (hr : executeRestoreVolume t src st = (true, st1)) :
    executeSetMute t false f src st =
      finishOperation muteChangedEvent f src t
        (applyToGroup t (speakerSetMute false) st1.speakerMap).1
        { st1 with speakerMap := (applyToGroup t (speakerSetMute false) st1.speakerMap).2 } := by
  unfold executeSetMute
  rw [hv]
  simp [hz, hr]

theorem finish_true_validate {ev : String} {f : Bool} {src : Source} {t : SpeakerType}
    {ok : Bool} {st1 st' : SpeakerManagerState}
    (h : finishOperation ev f src t ok st1 = (true, st')) :
    ∃ s, validateSpeakerSettingsConsistency st' t = some s := by
  obtain ⟨hok, s, hv1, hcase⟩ := finish_true h
  rcases hcase with ⟨_, rfl⟩ | ⟨_, rfl⟩
  · exact ⟨s, hv1⟩
  · exact ⟨s, Eq.trans (validate_congr t rfl) hv1⟩

theorem clampVolume_of_range {st : SpeakerManagerState} {v : Int}
    (h1 : st.minVolume ≤ v) (h2 : v ≤ st.maxVolume) : clampVolume st v = v := by
  unfold clampVolume
  split_ifs <;> omega

theorem read_upd_volume {sp : Speaker} {s : SpeakerSettings} {w : Int}
    (h : speakerGetSettings sp = some s) :
    speakerGetSettings { sp with settings := { sp.settings with volume := w } } =
      some { volume := w, mute := s.mute } := by
  obtain ⟨hf, hs⟩ := speakerGetSettings_eq_some.1 h
  subst hs
  simp [speakerGetSettings, hf]

theorem read_upd_mute {sp : Speaker} {s : SpeakerSettings} {m : Bool}
    (h : speakerGetSettings sp = some s) :
    speakerGetSettings { sp with settings := { sp.settings with mute := m } } =
      some { volume := s.volume, mute := m } := by
  obtain ⟨hf, hs⟩ := speakerGetSettings_eq_some.1 h
  subst hs
  simp [speakerGetSettings, hf]

theorem setMuteCore_true {t : SpeakerType} {m : Bool} {f : Bool} {src : Source}
    {st1 st' : SpeakerManagerState}
    (h : finishOperation muteChangedEvent f src t
      (applyToGroup t (speakerSetMute m) st1.speakerMap).1
      { st1 with speakerMap := (applyToGroup t (speakerSetMute m) st1.speakerMap).2 } =
      (true, st')) :
    ∃ s, validateSpeakerSettingsConsistency st' t = some s ∧
      speakersOfType st' t = (speakersOfType st1 t).map
        (fun sp => { sp with settings := { sp.settings with mute := m } }) ∧
      (∀ sp ∈ speakersOfType st1 t, sp.setMuteFails = false) := by
  obtain ⟨hok, s, hv1, hcase⟩ := finish_true h
  have hflags : ∀ sp ∈ speakersOfType st1 t, sp.setMuteFails = false := by
    intro sp hm
    exact speakerSetMute_isSome.1 ((applyToGroup_fst _ _ _).1 hok sp hm)
  have hsm : st'.speakerMap = (applyToGroup t (speakerSetMute m) st1.speakerMap).2 := by
    rcases hcase with ⟨_, rfl⟩ | ⟨_, rfl⟩
    · rfl
    · rfl
  have hgroup : speakersOfType st' t = (speakersOfType st1 t).map
      (fun sp => { sp with settings := { sp.settings with mute := m } }) := by
    show groupOf t st'.speakerMap = _
    rw [hsm, applyToGroup_group_of_true _ _ _ hok]
    exact map_congr_mem (fun sp hm => speakerSetMute_getD (hflags sp hm))
  refine ⟨s, ?_, hgroup, hflags⟩
  have heq : validateSpeakerSettingsConsistency st' t =
      validateSpeakerSettingsConsistency
        { st1 with speakerMap := (applyToGroup t (speakerSetMute m) st1.speakerMap).2 } t :=
    validate_congr _ hsm
  rw [heq]
  exact hv1

theorem setMuteCore_notify {t : SpeakerType} {m : Bool} {src : Source}
    {st1 st' : SpeakerManagerState}
    (h : finishOperation muteChangedEvent false src t
      (applyToGroup t (speakerSetMute m) st1.speakerMap).1
      { st1 with speakerMap := (applyToGroup t (speakerSetMute m) st1.speakerMap).2 } =
      (true, st')) :
    ∃ s, validateSpeakerSettingsConsistency st' t = some s ∧
      st'.events = st1.events ++ [(muteChangedEvent, s)] ∧
      st'.contextUpdates = st1.contextUpdates ++ [(t, s)] ∧
      st'.observerCalls = st1.observerCalls ++ st1.observers.map (fun o => (o, src, t, s)) := by
  obtain ⟨hok, s, hv1, hcase⟩ := finish_true h
  rcases hcase with ⟨hc, _⟩ | ⟨_, rfl⟩
  · cases hc
  · refine ⟨s, ?_, by simp [notify_def], by simp [notify_def], by simp [notify_def]⟩
    exact Eq.trans (validate_congr t rfl) hv1

theorem setMuteCore_force_snd (t : SpeakerType) (m : Bool) (src : Source)
    (st1 : SpeakerManagerState) :
    (finishOperation muteChangedEvent true src t
      (applyToGroup t (speakerSetMute m) st1.speakerMap).1
      { st1 with speakerMap := (applyToGroup t (speakerSetMute m) st1.speakerMap).2 }).2 =
      { st1 with speakerMap := (applyToGroup t (speakerSetMute m) st1.speakerMap).2 } :=
  finish_force_snd _ _ _ _ _

theorem setVolume_force_logs (t : SpeakerType) (v : Int) (src : Source)
    (st : SpeakerManagerState) :
    (executeSetVolume t v true src st).2.events = st.events ∧
    (executeSetVolume t v true src st).2.contextUpdates = st.contextUpdates ∧
    (executeSetVolume t v true src st).2.observerCalls = st.observerCalls ∧
    (executeSetVolume t v true src st).2.observers = st.observers := by
  rw [setVolume_snd_force]
  exact ⟨rfl, rfl, rfl, rfl⟩

theorem setMute_true_validate {t : SpeakerType} {m : Bool} {f : Bool} {src : Source}
    {st st' : SpeakerManagerState}
    (h : executeSetMute t m f src st = (true, st')) :
    ∃ s, validateSpeakerSettingsConsistency st' t = some s := by
  cases m with
  | true =>
    rw [executeSetMute_mute_def] at h
    exact finish_true_validate h
  | false =>
    cases hv : validateSpeakerSettingsConsistency st t with
    | none =>
      rw [executeSetMute_unmute_none hv] at h
      simp at h
    | some s =>
      by_cases hz : s.volume = 0
      · rcases hres : executeRestoreVolume t src st with ⟨b, st1⟩
        cases b with
        | false =>
          rw [executeSetMute_unmute_zero_fail hv hz hres] at h
          simp at h
        | true =>
          rw [executeSetMute_unmute_zero_ok hv hz hres] at h
          exact finish_true_validate h
      · rw [executeSetMute_unmute_nonzero hv hz] at h
        exact finish_true_validate h

theorem adjust_true_validate {t : SpeakerType} {d : Int} {f : Bool} {src : Source}
    {st st' : SpeakerManagerState}
    (h : executeAdjustVolume t d f src st = (true, st')) :
    ∃ s, validateSpeakerSettingsConsistency st' t = some s := by
  cases hv : validateSpeakerSettingsConsistency st t with
  | none =>
    rw [executeAdjustVolume_none hv] at h
    simp at h
  | some s =>
    rw [executeAdjustVolume_some hv, executeSetVolume_def] at h
    exact finish_true_validate h

theorem uniform_of_validate {st : SpeakerManagerState} {t : SpeakerType} {s : SpeakerSettings}
    (h : validateSpeakerSettingsConsistency st t = some s) :
    ∀ sp1 ∈ speakersOfType st t, ∀ sp2 ∈ speakersOfType st t,
      speakerGetSettings sp1 = speakerGetSettings sp2 :=
  fun sp1 h1 sp2 h2 => (validate_sound h sp1 h1).trans (validate_sound h sp2 h2).symm

/-! ## Claim theorems -/

/-- Claim C1 (invariants): after any successful SetVolume, SetMute or
AdjustVolume on a group, every endpoint of that group reports the identical
Settings pair, i.e. group-wide uniformity of Settings holds between
successful engine operations. -/
theorem c1_group_settings_uniform_after_success (st : SpeakerManagerState)
    (t : SpeakerType) (f : Bool) (src : Source) :
    (∀ (v : Int) (st' : SpeakerManagerState),
      executeSetVolume t v f src st = (true, st') →
      ∀ sp1 ∈ speakersOfType st' t, ∀ sp2 ∈ speakersOfType st' t,
        speakerGetSettings sp1 = speakerGetSettings sp2) ∧
    (∀ (m : Bool) (st' : SpeakerManagerState),
      executeSetMute t m f src st = (true, st') →
      ∀ sp1 ∈ speakersOfType st' t, ∀ sp2 ∈ speakersOfType st' t,
        speakerGetSettings sp1 = speakerGetSettings sp2) ∧
    (∀ (d : Int) (st' : SpeakerManagerState),
      executeAdjustVolume t d f src st = (true, st') →
      ∀ sp1 ∈ speakersOfType st' t, ∀ sp2 ∈ speakersOfType st' t,
        speakerGetSettings sp1 = speakerGetSettings sp2) := by
  refine ⟨?_, ?_, ?_⟩
  · intro v st' h
    rw [executeSetVolume_def] at h
    obtain ⟨s, hs⟩ := finish_true_validate h
    exact uniform_of_validate hs
  · intro m st' h
    obtain ⟨s, hs⟩ := setMute_true_validate h
    exact uniform_of_validate hs
  · intro d st' h
    obtain ⟨s, hs⟩ := adjust_true_validate h
    exact uniform_of_validate hs

/-- Witness for C1: on the demonstration engine, setVolume 5 on group 0
succeeds and the theorem yields agreement of the two members' reads. -/
theorem c1_witness :
    executeSetVolume 0 5 false Source.LOCAL_API demoState =
      (true, (executeSetVolume 0 5 false Source.LOCAL_API demoState).2) ∧
    speakerGetSettings (mkSpeaker 5 false) = speakerGetSettings (mkSpeaker 5 false) :=
  ⟨by decide,
   (c1_group_settings_uniform_after_success demoState 0 false Source.LOCAL_API).1 5
     (executeSetVolume 0 5 false Source.LOCAL_API demoState).2 (by decide)
     (mkSpeaker 5 false) (by decide) (mkSpeaker 5 false) (by decide)⟩

theorem empty_group_validate_none {st : SpeakerManagerState} {t : SpeakerType}
    (he : speakersOfType st t = []) (g : Speaker → Option Speaker) :
    (applyToGroup t g st.speakerMap).1 = true ∧
    validateSpeakerSettingsConsistency
      { st with speakerMap := (applyToGroup t g st.speakerMap).2 } t = none := by
  have hempty : groupOf t st.speakerMap = [] := he
  have hok : (applyToGroup t g st.speakerMap).1 = true := by
    apply (applyToGroup_fst t g st.speakerMap).2
    rw [hempty]
    intro sp hm
    cases hm
  refine ⟨hok, ?_⟩
  apply validate_eq_none_of_empty
  show groupOf t _ = []
  rw [applyToGroup_group_of_true t g st.speakerMap hok, hempty]
  rfl

/-- Claim C3 (error handling): validate fails on an empty group (hence every
group-wide operation on an unknown or empty group reports failure), fails
whenever any endpoint read fails or any two endpoint reads disagree, and
returns the common Settings exactly when all reads succeed and agree, never
returning a value some member endpoint does not report. -/
theorem c3_validator_correctness (st : SpeakerManagerState) (t : SpeakerType) :
    (speakersOfType st t = [] →
      validateSpeakerSettingsConsistency st t = none ∧
      (∀ (v : Int) (f : Bool) (src : Source), (executeSetVolume t v f src st).1 = false) ∧
      (∀ (d : Int) (f : Bool) (src : Source), (executeAdjustVolume t d f src st).1 = false) ∧
      (∀ (m f : Bool) (src : Source), (executeSetMute t m f src st).1 = false) ∧
      executeGetSpeakerSettings st t = none) ∧
    (∀ s : SpeakerSettings,
      validateSpeakerSettingsConsistency st t = some s ↔
        (speakersOfType st t ≠ [] ∧
         ∀ sp ∈ speakersOfType st t, speakerGetSettings sp = some s)) ∧
    ((∃ sp ∈ speakersOfType st t, speakerGetSettings sp = none) →
      validateSpeakerSettingsConsistency st t = none) ∧
    ((∃ sp1 ∈ speakersOfType st t, ∃ sp2 ∈ speakersOfType st t,
        speakerGetSettings sp1 ≠ speakerGetSettings sp2) →
      validateSpeakerSettingsConsistency st t = none) := by
  refine ⟨?_, ?_, ?_, ?_⟩
  · intro he
    refine ⟨validate_eq_none_of_empty he, ?_, ?_, ?_, validate_eq_none_of_empty he⟩
    · intro v f src
      obtain ⟨hok, hnone⟩ :=
        empty_group_validate_none he (speakerSetVolume (clampVolume st v))
      rw [setVolume_fst, hnone]
      simp
    · intro d f src
      rw [executeAdjustVolume_none (validate_eq_none_of_empty he)]
    · intro m f src
      cases m with
      | true =>
        obtain ⟨hok, hnone⟩ := empty_group_validate_none he (speakerSetMute true)
        rw [executeSetMute_mute_def, finish_fst, hnone]
        simp
      | false =>
        rw [executeSetMute_unmute_none (validate_eq_none_of_empty he)]
  · intro s
    constructor
    · intro h
      exact ⟨validate_ne_nil h, validate_sound h⟩
    · intro ⟨hne, h⟩
      exact validate_of_uniform hne h
  · intro ⟨sp, hm, hn⟩
    cases hval : validateSpeakerSettingsConsistency st t with
    | none => rfl
    | some s =>
      have := validate_sound hval sp hm
      rw [hn] at this
      cases this
  · intro ⟨sp1, hm1, sp2, hm2, hne⟩
    cases hval : validateSpeakerSettingsConsistency st t with
    | none => rfl
    | some s =>
      exact absurd ((validate_sound hval sp1 hm1).trans
        (validate_sound hval sp2 hm2).symm) hne

/-- Witness for C3: on the demonstration engines, group 0 of demoStateEmpty
is empty so validate and setVolume fail, while group 0 of demoState
validates to the common settings pair (10, unmuted). -/
theorem c3_witness :
    validateSpeakerSettingsConsistency demoStateEmpty 0 = none ∧
    (executeSetVolume 0 42 false Source.LOCAL_API demoStateEmpty).1 = false ∧
    validateSpeakerSettingsConsistency demoState 0 = some { volume := 10, mute := false } :=
  ⟨((c3_validator_correctness demoStateEmpty 0).1 (by decide)).1,
   ((c3_validator_correctness demoStateEmpty 0).1 (by decide)).2.1 42 false Source.LOCAL_API,
   ((c3_validator_correctness demoState 0).2.1 { volume := 10, mute := false }).2
     ⟨by decide, by decide⟩⟩

theorem clampVolume_high {st : SpeakerManagerState} {v : Int}
    (hr : st.minVolume ≤ st.maxVolume) (h : st.maxVolume < v) :
    clampVolume st v = st.maxVolume := by
  unfold clampVolume
  split_ifs <;> omega

theorem clampVolume_low {st : SpeakerManagerState} {v : Int}
    (h : v < st.minVolume) : clampVolume st v = st.minVolume := by
  unfold clampVolume
  split_ifs <;> omega

theorem setVolume_true_volume {t : SpeakerType} {v : Int} {f : Bool} {src : Source}
    {st st' : SpeakerManagerState}
    (h : executeSetVolume t v f src st = (true, st')) :
    ∃ s', validateSpeakerSettingsConsistency st' t = some s' ∧
      s'.volume = clampVolume st v := by
  obtain ⟨s', hval, hgroup, hflags⟩ := setVolume_true h
  refine ⟨s', hval, ?_⟩
  have hne := validate_ne_nil hval
  obtain ⟨sp', hm'⟩ := List.exists_mem_of_ne_nil _ hne
  have hread := validate_sound hval sp' hm'
  rw [hgroup] at hm'
  obtain ⟨sp, hm, heq⟩ := List.mem_map.1 hm'
  subst heq
  obtain ⟨hgf, hset⟩ := speakerGetSettings_eq_some.1 hread
  rw [← hset]

/-- Claim C5 (numerical): volume is an integer confined to the fixed closed
range: a successful setVolume yields a reported group volume equal to
clamp(v), saturating at max for over-range requests and at min for
under-range requests, and adjustVolume computes clamp(current + delta). -/
theorem c5_volume_clamped (st : SpeakerManagerState) (t : SpeakerType) (f : Bool)
    (src : Source) (hrange : st.minVolume ≤ st.maxVolume) :
    (∀ (v : Int) (st' : SpeakerManagerState) (s' : SpeakerSettings),
      executeSetVolume t v f src st = (true, st') →
      validateSpeakerSettingsConsistency st' t = some s' →
      s'.volume = clampVolume st v ∧
      (st.maxVolume < v → s'.volume = st.maxVolume) ∧
      (v < st.minVolume → s'.volume = st.minVolume)) ∧
    (∀ (d : Int) (s : SpeakerSettings) (st' : SpeakerManagerState) (s' : SpeakerSettings),
      validateSpeakerSettingsConsistency st t = some s →
      executeAdjustVolume t d f src st = (true, st') →
      validateSpeakerSettingsConsistency st' t = some s' →
      s'.volume = clampVolume st (s.volume + d)) := by
  constructor
  · intro v st' s' h hval
    obtain ⟨s'', hval'', hvol⟩ := setVolume_true_volume h
    rw [hval] at hval''
    have hs : s' = s'' := by injection hval''
    subst hs
    refine ⟨hvol, ?_, ?_⟩
    · intro hhigh
      rw [hvol, clampVolume_high hrange hhigh]
    · intro hlow
      rw [hvol, clampVolume_low hlow]
  · intro d s st' s' hv h hval
    rw [executeAdjustVolume_some hv] at h
    obtain ⟨s'', hval'', hvol⟩ := setVolume_true_volume h
    rw [hval] at hval''
    have hs : s' = s'' := by injection hval''
    subst hs
    exact hvol

/-- Witness for C5: on the demonstration engine (range 0 to 100), setVolume
150 saturates at 100 and adjustVolume by -30 from volume 10 saturates at 0. -/
theorem c5_witness :
    demoState.minVolume ≤ demoState.maxVolume ∧
    ({ volume := 100, mute := false } : SpeakerSettings).volume = clampVolume demoState 150 ∧
    ({ volume := 0, mute := false } : SpeakerSettings).volume =
      clampVolume demoState (({ volume := 10, mute := false } : SpeakerSettings).volume + (-30)) :=
  ⟨by decide,
   ((c5_volume_clamped demoState 0 false Source.LOCAL_API (by decide)).1 150
     (executeSetVolume 0 150 false Source.LOCAL_API demoState).2
     { volume := 100, mute := false } (by decide) (by decide)).1,
   (c5_volume_clamped demoState 0 false Source.LOCAL_API (by decide)).2 (-30)
     { volume := 10, mute := false }
     (executeAdjustVolume 0 (-30) false Source.LOCAL_API demoState).2
     { volume := 0, mute := false } (by decide) (by decide) (by decide)⟩

theorem muteLoop_fail_char (t : SpeakerType) (m : Bool) (f : Bool) (src : Source)
    (stB : SpeakerManagerState) (pre : List Speaker) (x : Speaker) (post : List Speaker)
    (hgroup : speakersOfType stB t = pre ++ x :: post)
    (hpre : ∀ sp ∈ pre, sp.setMuteFails = false)
    (hx : x.setMuteFails = true) :
    (finishOperation muteChangedEvent f src t
      (applyToGroup t (speakerSetMute m) stB.speakerMap).1
      { stB with speakerMap := (applyToGroup t (speakerSetMute m) stB.speakerMap).2 }).1 =
      false ∧
    speakersOfType
      (finishOperation muteChangedEvent f src t
        (applyToGroup t (speakerSetMute m) stB.speakerMap).1
        { stB with speakerMap := (applyToGroup t (speakerSetMute m) stB.speakerMap).2 }).2 t =
      pre.map (fun sp => { sp with settings := { sp.settings with mute := m } })
        ++ x :: post := by
  have hpre' : ∀ sp ∈ pre, (speakerSetMute m sp).isSome = true :=
    fun sp hm => speakerSetMute_isSome.2 (hpre sp hm)
  have hx' : speakerSetMute m x = none := by
    simp [speakerSetMute, hx]
  obtain ⟨h1, h2⟩ := applyToGroup_fail t _ stB.speakerMap pre x post hgroup hpre' hx'
  constructor
  · rw [finish_fst, h1]
    simp
  · show groupOf t
      (finishOperation muteChangedEvent f src t
        (applyToGroup t (speakerSetMute m) stB.speakerMap).1
        { stB with
          speakerMap := (applyToGroup t (speakerSetMute m) stB.speakerMap).2 }).2.speakerMap = _
    rw [finish_speakerMap]
    show groupOf t (applyToGroup t (speakerSetMute m) stB.speakerMap).2 = _
    rw [h2]
    congr 1
    exact map_congr_mem (fun sp hm => speakerSetMute_getD (hpre sp hm))

/-- Claim C4 (error handling): during a group-wide SetVolume or SetMute
(muting and both unmute paths, including the silent zero-volume
restoration), if any single endpoint's device-level set call fails then the
overall operation reports failure, and the endpoints whose set calls
already succeeded keep their newly applied value; the failing endpoint and
the later ones are untouched (no rollback). -/
theorem c4_no_rollback_on_device_failure (st : SpeakerManagerState) (t : SpeakerType)
    (f : Bool) (src : Source) (pre : List Speaker) (x : Speaker) (post : List Speaker) :
    (∀ v : Int,
      speakersOfType st t = pre ++ x :: post →
      (∀ sp ∈ pre, sp.setVolumeFails = false) →
      x.setVolumeFails = true →
      (executeSetVolume t v f src st).1 = false ∧
      speakersOfType (executeSetVolume t v f src st).2 t =
        pre.map (fun sp => { sp with settings := { sp.settings with volume := clampVolume st v } })
          ++ x :: post) ∧
    (speakersOfType st t = pre ++ x :: post →
      (∀ sp ∈ pre, sp.setMuteFails = false) →
      x.setMuteFails = true →
      (executeSetMute t true f src st).1 = false ∧
      speakersOfType (executeSetMute t true f src st).2 t =
        pre.map (fun sp => { sp with settings := { sp.settings with mute := true } })
          ++ x :: post) ∧
    (∀ s : SpeakerSettings,
      validateSpeakerSettingsConsistency st t = some s →
      ¬s.volume = 0 →
      speakersOfType st t = pre ++ x :: post →
      (∀ sp ∈ pre, sp.setMuteFails = false) →
      x.setMuteFails = true →
      (executeSetMute t false f src st).1 = false ∧
      speakersOfType (executeSetMute t false f src st).2 t =
        pre.map (fun sp => { sp with settings := { sp.settings with mute := false } })
          ++ x :: post) ∧
    (∀ s : SpeakerSettings,
      validateSpeakerSettingsConsistency st t = some s →
      s.volume = 0 →
      speakersOfType st t = pre ++ x :: post →
      (∀ sp ∈ pre, sp.setVolumeFails = false) →
      x.setVolumeFails = true →
      (executeSetMute t false f src st).1 = false ∧
      speakersOfType (executeSetMute t false f src st).2 t =
        pre.map (fun sp =>
          { sp with settings :=
            { sp.settings with volume := clampVolume st st.minUnmuteVolume } })
          ++ x :: post) ∧
    (∀ s : SpeakerSettings,
      validateSpeakerSettingsConsistency st t = some s →
      s.volume = 0 →
      speakersOfType st t = pre ++ x :: post →
      (∀ sp ∈ speakersOfType st t, sp.setVolumeFails = false) →
      (∀ sp ∈ pre, sp.setMuteFails = false) →
      x.setMuteFails = true →
      (executeSetMute t false f src st).1 = false ∧
      speakersOfType (executeSetMute t false f src st).2 t =
        (pre.map (fun sp =>
          { sp with settings :=
            { sp.settings with volume := clampVolume st st.minUnmuteVolume } })).map
          (fun sp => { sp with settings := { sp.settings with mute := false } })
          ++ { x with settings :=
                { x.settings with volume := clampVolume st st.minUnmuteVolume } }
            :: post.map (fun sp =>
              { sp with settings :=
                { sp.settings with volume := clampVolume st st.minUnmuteVolume } })) := by
  refine ⟨?_, ?_, ?_, ?_, ?_⟩
  · -- SetVolume: first failing set-volume call
    intro v hgroup hpre hx
    have hpre' : ∀ sp ∈ pre, (speakerSetVolume (clampVolume st v) sp).isSome = true :=
      fun sp hm => speakerSetVolume_isSome.2 (hpre sp hm)
    have hx' : speakerSetVolume (clampVolume st v) x = none := by
      simp [speakerSetVolume, hx]
    obtain ⟨h1, h2⟩ := applyToGroup_fail t _ st.speakerMap pre x post hgroup hpre' hx'
    constructor
    · rw [setVolume_fst, h1]
      simp
    · have hsm : (executeSetVolume t v f src st).2.speakerMap =
          (applyToGroup t (speakerSetVolume (clampVolume st v)) st.speakerMap).2 := by
        rw [executeSetVolume_def, finish_speakerMap]
      show groupOf t (executeSetVolume t v f src st).2.speakerMap = _
      rw [hsm, h2]
      congr 1
      exact map_congr_mem (fun sp hm => speakerSetVolume_getD (hpre sp hm))
  · -- SetMute, muting: first failing set-mute call
    intro hgroup hpre hx
    rw [executeSetMute_mute_def]
    exact muteLoop_fail_char t true f src st pre x post hgroup hpre hx
  · -- SetMute, unmuting at nonzero volume: first failing set-mute call
    intro s hv hnz hgroup hpre hx
    rw [executeSetMute_unmute_nonzero hv hnz]
    exact muteLoop_fail_char t false f src st pre x post hgroup hpre hx
  · -- SetMute, unmuting at zero volume: the restoration's set-volume call fails
    intro s hv hz hgroup hpre hx
    have hpre' : ∀ sp ∈ pre,
        (speakerSetVolume (clampVolume st st.minUnmuteVolume) sp).isSome = true :=
      fun sp hm => speakerSetVolume_isSome.2 (hpre sp hm)
    have hx' : speakerSetVolume (clampVolume st st.minUnmuteVolume) x = none := by
      simp [speakerSetVolume, hx]
    obtain ⟨h1, h2⟩ := applyToGroup_fail t _ st.speakerMap pre x post hgroup hpre' hx'
    have hres : executeRestoreVolume t src st =
        (false,
          { st with speakerMap :=
            (applyToGroup t (speakerSetVolume (clampVolume st st.minUnmuteVolume))
              st.speakerMap).2 }) := by
      show executeSetVolume t st.minUnmuteVolume true src st = _
      rw [executeSetVolume_def, h1]
      rfl
    rw [executeSetMute_unmute_zero_fail hv hz hres]
    refine ⟨rfl, ?_⟩
    show groupOf t
      (applyToGroup t (speakerSetVolume (clampVolume st st.minUnmuteVolume))
        st.speakerMap).2 = _
    rw [h2]
    congr 1
    exact map_congr_mem (fun sp hm => speakerSetVolume_getD (hpre sp hm))
  · -- SetMute, unmuting at zero volume: restoration succeeds, then a
    -- set-mute call fails
    intro s hv hz hgroup hvolflags hpre hx
    have hok1 : (applyToGroup t (speakerSetVolume (clampVolume st st.minUnmuteVolume))
        st.speakerMap).1 = true :=
      (applyToGroup_fst _ _ _).2
        (fun sp hm => speakerSetVolume_isSome.2 (hvolflags sp hm))
    have hgr1 : speakersOfType
        { st with speakerMap :=
          (applyToGroup t (speakerSetVolume (clampVolume st st.minUnmuteVolume))
            st.speakerMap).2 } t =
        (speakersOfType st t).map (fun sp =>
          { sp with settings :=
            { sp.settings with volume := clampVolume st st.minUnmuteVolume } }) := by
      show groupOf t _ = _
      rw [applyToGroup_group_of_true _ _ _ hok1]
      exact map_congr_mem (fun sp hm => speakerSetVolume_getD (hvolflags sp hm))
    have hval1 : validateSpeakerSettingsConsistency
        { st with speakerMap :=
          (applyToGroup t (speakerSetVolume (clampVolume st st.minUnmuteVolume))
            st.speakerMap).2 } t =
        some { volume := clampVolume st st.minUnmuteVolume, mute := s.mute } := by
      apply validate_of_uniform
      · rw [hgr1]
        simp only [ne_eq, List.map_eq_nil_iff]
        rw [hgroup]
        simp
      · intro sp' hm'
        rw [hgr1] at hm'
        obtain ⟨sp, hm, heq⟩ := List.mem_map.1 hm'
        subst heq
        obtain ⟨hgf, hsset⟩ := speakerGetSettings_eq_some.1 (validate_sound hv sp hm)
        simp [speakerGetSettings, hgf, hsset]
    have hres : executeRestoreVolume t src st =
        (true,
          { st with speakerMap :=
            (applyToGroup t (speakerSetVolume (clampVolume st st.minUnmuteVolume))
              st.speakerMap).2 }) := by
      show executeSetVolume t st.minUnmuteVolume true src st = _
      rw [executeSetVolume_def, hok1]
      simp [finishOperation, hval1]
    rw [executeSetMute_unmute_zero_ok hv hz hres]
    have hgroup1 : speakersOfType
        { st with speakerMap :=
          (applyToGroup t (speakerSetVolume (clampVolume st st.minUnmuteVolume))
            st.speakerMap).2 } t =
        pre.map (fun sp =>
          { sp with settings :=
            { sp.settings with volume := clampVolume st st.minUnmuteVolume } })
          ++ { x with settings :=
                { x.settings with volume := clampVolume st st.minUnmuteVolume } }
            :: post.map (fun sp =>
              { sp with settings :=
                { sp.settings with volume := clampVolume st st.minUnmuteVolume } }) := by
      rw [hgr1, hgroup]
      simp
    have hpre1 : ∀ sp ∈ pre.map (fun sp =>
        { sp with settings :=
          { sp.settings with volume := clampVolume st st.minUnmuteVolume } }),
        sp.setMuteFails = false := by
      intro sp hm
      obtain ⟨sp0, hm0, heq⟩ := List.mem_map.1 hm
      subst heq
      exact hpre sp0 hm0
    exact muteLoop_fail_char t false f src _ _ _ _ hgroup1 hpre1 hx

/-- Witness for C4: in demoStateFailing the middle endpoint of group 0 fails
its set calls, so setVolume, mute and unmute all report failure while the
first endpoint keeps its newly applied value; in demoStateZeroFailingVol
the unmute-at-zero restoration fails on the second endpoint after raising
the first to the Minimum-Unmute-Volume; in demoStateZeroFailingMute the
restoration succeeds and the unmute then fails on the second endpoint. -/
theorem c4_witness :
    ((executeSetVolume 0 50 false Source.LOCAL_API demoStateFailing).1 = false ∧
      speakersOfType (executeSetVolume 0 50 false Source.LOCAL_API demoStateFailing).2 0 =
        [mkSpeaker 50 false,
         { mkSpeaker 10 false with setVolumeFails := true, setMuteFails := true },
         mkSpeaker 10 false]) ∧
    ((executeSetMute 0 true false Source.LOCAL_API demoStateFailing).1 = false ∧
      speakersOfType (executeSetMute 0 true false Source.LOCAL_API demoStateFailing).2 0 =
        [mkSpeaker 10 true,
         { mkSpeaker 10 false with setVolumeFails := true, setMuteFails := true },
         mkSpeaker 10 false]) ∧
    ((executeSetMute 0 false false Source.LOCAL_API demoStateFailing).1 = false ∧
      speakersOfType (executeSetMute 0 false false Source.LOCAL_API demoStateFailing).2 0 =
        [mkSpeaker 10 false,
         { mkSpeaker 10 false with setVolumeFails := true, setMuteFails := true },
         mkSpeaker 10 false]) ∧
    ((executeSetMute 0 false false Source.LOCAL_API demoStateZeroFailingVol).1 = false ∧
      speakersOfType
        (executeSetMute 0 false false Source.LOCAL_API demoStateZeroFailingVol).2 0 =
        [mkSpeaker 20 true, { mkSpeaker 0 true with setVolumeFails := true }]) ∧
    ((executeSetMute 0 false false Source.LOCAL_API demoStateZeroFailingMute).1 = false ∧
      speakersOfType
        (executeSetMute 0 false false Source.LOCAL_API demoStateZeroFailingMute).2 0 =
        [mkSpeaker 20 false, { mkSpeaker 20 true with setMuteFails := true }]) :=
  ⟨(c4_no_rollback_on_device_failure demoStateFailing 0 false Source.LOCAL_API
      [mkSpeaker 10 false]
      { mkSpeaker 10 false with setVolumeFails := true, setMuteFails := true }
      [mkSpeaker 10 false]).1 50 (by decide) (by decide) (by decide),
   (c4_no_rollback_on_device_failure demoStateFailing 0 false Source.LOCAL_API
      [mkSpeaker 10 false]
      { mkSpeaker 10 false with setVolumeFails := true, setMuteFails := true }
      [mkSpeaker 10 false]).2.1 (by decide) (by decide) (by decide),
   (c4_no_rollback_on_device_failure demoStateFailing 0 false Source.LOCAL_API
      [mkSpeaker 10 false]
      { mkSpeaker 10 false with setVolumeFails := true, setMuteFails := true }
      [mkSpeaker 10 false]).2.2.1 { volume := 10, mute := false }
      (by decide) (by decide) (by decide) (by decide) (by decide),
   (c4_no_rollback_on_device_failure demoStateZeroFailingVol 0 false Source.LOCAL_API
      [mkSpeaker 0 true] { mkSpeaker 0 true with setVolumeFails := true } []).2.2.2.1
      { volume := 0, mute := true } (by decide) (by decide) (by decide) (by decide)
      (by decide),
   (c4_no_rollback_on_device_failure demoStateZeroFailingMute 0 false Source.LOCAL_API
      [mkSpeaker 0 true] { mkSpeaker 0 true with setMuteFails := true } []).2.2.2.2
      { volume := 0, mute := true } (by decide) (by decide) (by decide) (by decide)
      (by decide) (by decide)⟩

theorem restore_logs (t : SpeakerType) (src : Source) (st : SpeakerManagerState) :
    (executeRestoreVolume t src st).2.events = st.events ∧
    (executeRestoreVolume t src st).2.contextUpdates = st.contextUpdates ∧
    (executeRestoreVolume t src st).2.observerCalls = st.observerCalls ∧
    (executeRestoreVolume t src st).2.observers = st.observers :=
  setVolume_force_logs t st.minUnmuteVolume src st

theorem suppression_setVolume (t : SpeakerType) (v : Int) (src : Source)
    (st : SpeakerManagerState) :
    (executeSetVolume t v true src st).1 = (executeSetVolume t v false src st).1 ∧
    (executeSetVolume t v true src st).2.speakerMap =
      (executeSetVolume t v false src st).2.speakerMap ∧
    (executeSetVolume t v true src st).2.events = st.events ∧
    (executeSetVolume t v true src st).2.contextUpdates = st.contextUpdates ∧
    (executeSetVolume t v true src st).2.observerCalls = st.observerCalls := by
  refine ⟨?_, ?_, (setVolume_force_logs t v src st).1,
    (setVolume_force_logs t v src st).2.1, (setVolume_force_logs t v src st).2.2.1⟩
  · rw [setVolume_fst, setVolume_fst]
  · rw [executeSetVolume_def, executeSetVolume_def, finish_speakerMap, finish_speakerMap]

theorem suppression_muteFinish (t : SpeakerType) (m : Bool) (src : Source)
    (st1 : SpeakerManagerState) :
    (finishOperation muteChangedEvent true src t
      (applyToGroup t (speakerSetMute m) st1.speakerMap).1
      { st1 with speakerMap := (applyToGroup t (speakerSetMute m) st1.speakerMap).2 }).1 =
    (finishOperation muteChangedEvent false src t
      (applyToGroup t (speakerSetMute m) st1.speakerMap).1
      { st1 with speakerMap := (applyToGroup t (speakerSetMute m) st1.speakerMap).2 }).1 ∧
    (finishOperation muteChangedEvent true src t
      (applyToGroup t (speakerSetMute m) st1.speakerMap).1
      { st1 with speakerMap := (applyToGroup t (speakerSetMute m) st1.speakerMap).2 }).2.speakerMap =
    (finishOperation muteChangedEvent false src t
      (applyToGroup t (speakerSetMute m) st1.speakerMap).1
      { st1 with speakerMap := (applyToGroup t (speakerSetMute m) st1.speakerMap).2 }).2.speakerMap ∧
    (finishOperation muteChangedEvent true src t
      (applyToGroup t (speakerSetMute m) st1.speakerMap).1
      { st1 with speakerMap := (applyToGroup t (speakerSetMute m) st1.speakerMap).2 }).2.events =
      st1.events ∧
    (finishOperation muteChangedEvent true src t
      (applyToGroup t (speakerSetMute m) st1.speakerMap).1
      { st1 with speakerMap := (applyToGroup t (speakerSetMute m) st1.speakerMap).2 }).2.contextUpdates =
      st1.contextUpdates ∧
    (finishOperation muteChangedEvent true src t
      (applyToGroup t (speakerSetMute m) st1.speakerMap).1
      { st1 with speakerMap := (applyToGroup t (speakerSetMute m) st1.speakerMap).2 }).2.observerCalls =
      st1.observerCalls := by
  refine ⟨?_, ?_, ?_, ?_, ?_⟩
  · rw [finish_fst, finish_fst]
  · rw [finish_speakerMap, finish_speakerMap]
  · rw [finish_force_snd]
  · rw [finish_force_snd]
  · rw [finish_force_snd]

/-- Claim C6 (frame and effect): an operation invoked with
forceNoNotifications set invokes no observer, performs no context-store
publication and emits no outbound event, while it still applies the same
device-state change and returns the same success or failure result as the
unsuppressed call. -/
theorem c6_suppressed_operations (st : SpeakerManagerState) (t : SpeakerType)
    (src : Source) :
    (∀ v : Int,
      (executeSetVolume t v true src st).1 = (executeSetVolume t v false src st).1 ∧
      (executeSetVolume t v true src st).2.speakerMap =
        (executeSetVolume t v false src st).2.speakerMap ∧
      (executeSetVolume t v true src st).2.events = st.events ∧
      (executeSetVolume t v true src st).2.contextUpdates = st.contextUpdates ∧
      (executeSetVolume t v true src st).2.observerCalls = st.observerCalls) ∧
    (∀ m : Bool,
      (executeSetMute t m true src st).1 = (executeSetMute t m false src st).1 ∧
      (executeSetMute t m true src st).2.speakerMap =
        (executeSetMute t m false src st).2.speakerMap ∧
      (executeSetMute t m true src st).2.events = st.events ∧
      (executeSetMute t m true src st).2.contextUpdates = st.contextUpdates ∧
      (executeSetMute t m true src st).2.observerCalls = st.observerCalls) ∧
    (∀ d : Int,
      (executeAdjustVolume t d true src st).1 = (executeAdjustVolume t d false src st).1 ∧
      (executeAdjustVolume t d true src st).2.speakerMap =
        (executeAdjustVolume t d false src st).2.speakerMap ∧
      (executeAdjustVolume t d true src st).2.events = st.events ∧
      (executeAdjustVolume t d true src st).2.contextUpdates = st.contextUpdates ∧
      (executeAdjustVolume t d true src st).2.observerCalls = st.observerCalls) := by
  refine ⟨fun v => suppression_setVolume t v src st, ?_, ?_⟩
  · intro m
    cases m with
    | true =>
      rw [executeSetMute_mute_def, executeSetMute_mute_def]
      exact suppression_muteFinish t true src st
    | false =>
      cases hv : validateSpeakerSettingsConsistency st t with
      | none =>
        rw [executeSetMute_unmute_none hv, executeSetMute_unmute_none hv]
        exact ⟨rfl, rfl, rfl, rfl, rfl⟩
      | some s =>
        by_cases hz : s.volume = 0
        · rcases hres : executeRestoreVolume t src st with ⟨b, st1⟩
          have hlogs := restore_logs t src st
          rw [hres] at hlogs
          cases b with
          | false =>
            rw [executeSetMute_unmute_zero_fail hv hz hres,
              executeSetMute_unmute_zero_fail hv hz hres]
            exact ⟨rfl, rfl, hlogs.1, hlogs.2.1, hlogs.2.2.1⟩
          | true =>
            rw [executeSetMute_unmute_zero_ok hv hz hres,
              executeSetMute_unmute_zero_ok hv hz hres]
            obtain ⟨e1, e2, e3, e4, e5⟩ := suppression_muteFinish t false src st1
            exact ⟨e1, e2, e3.trans hlogs.1, e4.trans hlogs.2.1, e5.trans hlogs.2.2.1⟩
        · rw [executeSetMute_unmute_nonzero hv hz, executeSetMute_unmute_nonzero hv hz]
          exact suppression_muteFinish t false src st
  · intro d
    cases hv : validateSpeakerSettingsConsistency st t with
    | none =>
      rw [executeAdjustVolume_none hv, executeAdjustVolume_none hv]
      exact ⟨rfl, rfl, rfl, rfl, rfl⟩
    | some s =>
      rw [executeAdjustVolume_some hv, executeAdjustVolume_some hv]
      exact suppression_setVolume t (s.volume + d) src st

/-- Claim C2 (functional correctness): unmuting a group whose consistent
volume is exactly zero first silently restores every endpoint to the
configured Minimum-Unmute-Volume (the restoration emits no observer
notification, context-store update or event, whatever the outer call's
suppression flag), then unmutes every endpoint; on success the final
Settings are (MinUnmuteVolume, unmuted) and exactly one non-suppressed
notification carries those final Settings.  Unmuting at nonzero volume
leaves the volume unchanged and only clears the mute flag. -/
theorem c2_unmute_at_zero_restores_min_unmute (st : SpeakerManagerState)
    (t : SpeakerType) (src : Source) (s : SpeakerSettings)
    (h1 : st.minVolume ≤ st.minUnmuteVolume) (h2 : st.minUnmuteVolume ≤ st.maxVolume)
    (hv : validateSpeakerSettingsConsistency st t = some s) :
    (s.volume = 0 → ∀ st' : SpeakerManagerState,
      executeSetMute t false false src st = (true, st') →
      validateSpeakerSettingsConsistency st' t =
        some { volume := st.minUnmuteVolume, mute := false } ∧
      st'.events = st.events ++
        [(muteChangedEvent, { volume := st.minUnmuteVolume, mute := false })] ∧
      st'.contextUpdates = st.contextUpdates ++
        [(t, { volume := st.minUnmuteVolume, mute := false })] ∧
      st'.observerCalls = st.observerCalls ++ st.observers.map
        (fun o => (o, src, t,
          ({ volume := st.minUnmuteVolume, mute := false } : SpeakerSettings)))) ∧
    (∀ (b : Bool) (st' : SpeakerManagerState),
      executeRestoreVolume t src st = (b, st') →
      st'.events = st.events ∧ st'.contextUpdates = st.contextUpdates ∧
      st'.observerCalls = st.observerCalls) ∧
    (∀ (b : Bool) (st' : SpeakerManagerState),
      executeSetMute t false true src st = (b, st') →
      st'.events = st.events ∧ st'.contextUpdates = st.contextUpdates ∧
      st'.observerCalls = st.observerCalls) ∧
    (¬s.volume = 0 → ∀ (f : Bool) (st' : SpeakerManagerState),
      executeSetMute t false f src st = (true, st') →
      validateSpeakerSettingsConsistency st' t =
        some { volume := s.volume, mute := false }) := by
  have hsound := validate_sound hv
  have hne : speakersOfType st t ≠ [] := validate_ne_nil hv
  have hw : clampVolume st st.minUnmuteVolume = st.minUnmuteVolume :=
    clampVolume_of_range h1 h2
  refine ⟨?_, ?_, ?_, ?_⟩
  · -- zero-volume unmute, unsuppressed
    intro hz st' h
    rcases hres : executeRestoreVolume t src st with ⟨b1, st1⟩
    cases b1 with
    | false =>
      rw [executeSetMute_unmute_zero_fail hv hz hres] at h
      simp at h
    | true =>
      rw [executeSetMute_unmute_zero_ok hv hz hres] at h
      have hresSV : executeSetVolume t st.minUnmuteVolume true src st = (true, st1) := hres
      obtain ⟨s1, hval1, hgroup1, hflags1⟩ := setVolume_true hresSV
      have hlog1 := restore_logs t src st
      rw [hres] at hlog1
      obtain ⟨s2, hval2, hev, hctx, hobs⟩ := setMuteCore_notify h
      obtain ⟨s2', hval2', hgroup2, hflags2⟩ := setMuteCore_true h
      have hval_final : validateSpeakerSettingsConsistency st' t =
          some { volume := st.minUnmuteVolume, mute := false } := by
        apply validate_of_uniform
        · rw [hgroup2, hgroup1]
          simp only [ne_eq, List.map_eq_nil_iff]
          exact hne
        · intro sp'' hm''
          rw [hgroup2, hgroup1] at hm''
          obtain ⟨sp', hm', heq'⟩ := List.mem_map.1 hm''
          obtain ⟨sp, hm, heq⟩ := List.mem_map.1 hm'
          subst heq'
          subst heq
          obtain ⟨hgf, hsset⟩ := speakerGetSettings_eq_some.1 (hsound sp hm)
          simp [speakerGetSettings, hgf, hw]
      have hs2 : s2 = { volume := st.minUnmuteVolume, mute := false } := by
        rw [hval2] at hval_final
        injection hval_final
      subst hs2
      rw [hlog1.1] at hev
      rw [hlog1.2.1] at hctx
      rw [hlog1.2.2.1, hlog1.2.2.2] at hobs
      exact ⟨hval_final, hev, hctx, hobs⟩
  · -- the restoration sub-step is silent
    intro b st' hres
    have hlog := restore_logs t src st
    rw [hres] at hlog
    exact ⟨hlog.1, hlog.2.1, hlog.2.2.1⟩
  · -- a fully suppressed unmute emits nothing either
    intro b st' h
    by_cases hz : s.volume = 0
    · rcases hres : executeRestoreVolume t src st with ⟨b1, st1⟩
      have hlog1 := restore_logs t src st
      rw [hres] at hlog1
      cases b1 with
      | false =>
        rw [executeSetMute_unmute_zero_fail hv hz hres] at h
        have hsnd := congrArg Prod.snd h
        simp only at hsnd
        rw [← hsnd]
        exact ⟨hlog1.1, hlog1.2.1, hlog1.2.2.1⟩
      | true =>
        rw [executeSetMute_unmute_zero_ok hv hz hres] at h
        have hsnd := congrArg Prod.snd h
        rw [finish_force_snd] at hsnd
        simp only at hsnd
        rw [← hsnd]
        exact ⟨hlog1.1, hlog1.2.1, hlog1.2.2.1⟩
    · rw [executeSetMute_unmute_nonzero hv hz] at h
      have hsnd := congrArg Prod.snd h
      rw [finish_force_snd] at hsnd
      simp only at hsnd
      rw [← hsnd]
      exact ⟨rfl, rfl, rfl⟩
  · -- unmute at nonzero volume: volume unchanged, mute cleared
    intro hnz f st' h
    rw [executeSetMute_unmute_nonzero hv hnz] at h
    obtain ⟨s2, hval2, hgroup2, hflags2⟩ := setMuteCore_true h
    apply validate_of_uniform
    · rw [hgroup2]
      simp only [ne_eq, List.map_eq_nil_iff]
      exact hne
    · intro sp'' hm''
      rw [hgroup2] at hm''
      obtain ⟨sp, hm, heq⟩ := List.mem_map.1 hm''
      subst heq
      obtain ⟨hgf, hsset⟩ := speakerGetSettings_eq_some.1 (hsound sp hm)
      simp [speakerGetSettings, hgf, hsset]

/-- Witness for C2: on demoStateZero (both endpoints at volume 0, muted,
Minimum-Unmute-Volume 20), the unsuppressed unmute ends with the group
validating to (20, unmuted), and a fully suppressed unmute emits no event. -/
theorem c2_witness :
    validateSpeakerSettingsConsistency
      (executeSetMute 0 false false Source.LOCAL_API demoStateZero).2 0 =
      some { volume := demoStateZero.minUnmuteVolume, mute := false } ∧
    (executeSetMute 0 false true Source.LOCAL_API demoStateZero).2.events =
      demoStateZero.events :=
  ⟨((c2_unmute_at_zero_restores_min_unmute demoStateZero 0 Source.LOCAL_API
      { volume := 0, mute := true } (by decide) (by decide) (by decide)).1 (by decide)
      (executeSetMute 0 false false Source.LOCAL_API demoStateZero).2 (by decide)).1,
   ((c2_unmute_at_zero_restores_min_unmute demoStateZero 0 Source.LOCAL_API
      { volume := 0, mute := true } (by decide) (by decide) (by decide)).2.2.1
      (executeSetMute 0 false true Source.LOCAL_API demoStateZero).1
      (executeSetMute 0 false true Source.LOCAL_API demoStateZero).2 (by decide)).1⟩

/-- Counterexample for C7: the claim as stated is false.  In
demoStateConsistentFailing group 0 is consistent (it validates to the pair
(10, unmuted)) yet adjustVolume with delta 0 reports failure, because the
zero-delta adjust still issues a device set call and that call fails.  In
demoStateOutOfRange group 0 is consistent at volume 200 (above the
configured maximum 100) and the zero-delta adjust succeeds but changes the
reported Settings to (100, unmuted), because the recomputed volume is
clamped. -/
theorem c7_counterexample :
    (validateSpeakerSettingsConsistency demoStateConsistentFailing 0 =
        some { volume := 10, mute := false } ∧
      (executeAdjustVolume 0 0 false Source.LOCAL_API demoStateConsistentFailing).1 =
        false) ∧
    (validateSpeakerSettingsConsistency demoStateOutOfRange 0 =
        some { volume := 200, mute := false } ∧
      (executeAdjustVolume 0 0 false Source.LOCAL_API demoStateOutOfRange).1 = true ∧
      validateSpeakerSettingsConsistency
        (executeAdjustVolume 0 0 false Source.LOCAL_API demoStateOutOfRange).2 0 =
        some { volume := 100, mute := false }) := by
  decide

theorem adjust_zero_step (t : SpeakerType) (f : Bool) (src : Source)
    {st : SpeakerManagerState} {s : SpeakerSettings}
    (hv : validateSpeakerSettingsConsistency st t = some s)
    (hr1 : st.minVolume ≤ s.volume) (hr2 : s.volume ≤ st.maxVolume)
    (hflags : ∀ sp ∈ speakersOfType st t, sp.setVolumeFails = false) :
    (executeAdjustVolume t 0 f src st).1 = true ∧
    (executeAdjustVolume t 0 f src st).2.speakerMap = st.speakerMap ∧
    (executeAdjustVolume t 0 f src st).2.minVolume = st.minVolume ∧
    (executeAdjustVolume t 0 f src st).2.maxVolume = st.maxVolume := by
  have hid : ∀ sp ∈ speakersOfType st t, speakerSetVolume s.volume sp = some sp := by
    intro sp hm
    obtain ⟨hgf, hsset⟩ := speakerGetSettings_eq_some.1 (validate_sound hv sp hm)
    have hflag := hflags sp hm
    have hs2 : ({ sp.settings with volume := s.volume } : SpeakerSettings) = sp.settings := by
      rw [hsset]
    simp [speakerSetVolume, hflag, hs2]
    rw [← hflag]
  have hclamp : clampVolume st (s.volume + 0) = s.volume := by
    rw [Int.add_zero]
    exact clampVolume_of_range hr1 hr2
  have hloop : applyToGroup t (speakerSetVolume (clampVolume st (s.volume + 0)))
      st.speakerMap = (true, st.speakerMap) := by
    rw [hclamp]
    exact applyToGroup_id t _ st.speakerMap hid
  have hop : executeAdjustVolume t 0 f src st =
      finishOperation volumeChangedEvent f src t true st := by
    rw [executeAdjustVolume_some hv, executeSetVolume_def, hloop]
  refine ⟨?_, ?_, ?_, ?_⟩
  · rw [hop, finish_fst, hv]
    rfl
  · rw [hop, finish_speakerMap]
  · rw [hop]
    exact (finish_preserves _ _ _ _ _ _).1
  · rw [hop]
    exact (finish_preserves _ _ _ _ _ _).2.1

/-- Claim C7 (corrected): for a consistent group whose reported volume lies
within the configured range and whose member endpoints all have working
set-volume device calls, adjustVolume with delta 0 reports success and
leaves the registered endpoint states (hence the group Settings) unchanged,
however many times it is repeated.  As stated the claim is false: a
zero-delta adjust still issues a device set call to every member, so it
fails on a consistent group with a failing endpoint, and it re-clamps an
out-of-range volume. -/
theorem c7_adjust_zero_idempotent (st : SpeakerManagerState) (t : SpeakerType)
    (f : Bool) (src : Source) (s : SpeakerSettings)
    (hv : validateSpeakerSettingsConsistency st t = some s)
    (hr1 : st.minVolume ≤ s.volume) (hr2 : s.volume ≤ st.maxVolume)
    (hflags : ∀ sp ∈ speakersOfType st t, sp.setVolumeFails = false) :
    ∀ n : Nat, (repeatAdjustZero t f src n st).1 = true ∧
      (repeatAdjustZero t f src n st).2.speakerMap = st.speakerMap ∧
      validateSpeakerSettingsConsistency (repeatAdjustZero t f src n st).2 t = some s := by
  have main : ∀ (n : Nat) (st1 : SpeakerManagerState),
      st1.speakerMap = st.speakerMap → st1.minVolume = st.minVolume →
      st1.maxVolume = st.maxVolume →
      (repeatAdjustZero t f src n st1).1 = true ∧
      (repeatAdjustZero t f src n st1).2.speakerMap = st.speakerMap ∧
      (repeatAdjustZero t f src n st1).2.minVolume = st.minVolume ∧
      (repeatAdjustZero t f src n st1).2.maxVolume = st.maxVolume := by
    intro n
    induction n with
    | zero =>
      intro st1 hsm hmin hmax
      exact ⟨rfl, hsm, hmin, hmax⟩
    | succ n ih =>
      intro st1 hsm hmin hmax
      have hv1 : validateSpeakerSettingsConsistency st1 t = some s :=
        (validate_congr t hsm).trans hv
      have hflags1 : ∀ sp ∈ speakersOfType st1 t, sp.setVolumeFails = false := by
        intro sp hm
        apply hflags
        show sp ∈ groupOf t st.speakerMap
        rw [← hsm]
        exact hm
      obtain ⟨s1, s2, s3, s4⟩ := adjust_zero_step t f src hv1
        (by rw [hmin]; exact hr1) (by rw [hmax]; exact hr2) hflags1
      have hrw : repeatAdjustZero t f src (n + 1) st1 =
          repeatAdjustZero t f src n (executeAdjustVolume t 0 f src st1).2 := by
        rw [repeatAdjustZero]
        simp [s1]
      rw [hrw]
      exact ih _ (s2.trans hsm) (s3.trans hmin) (s4.trans hmax)
  intro n
  obtain ⟨a, b, c, d⟩ := main n st rfl rfl rfl
  exact ⟨a, b, (validate_congr t b).trans hv⟩

/-- Witness for the amended C7: on the demonstration engine, three repeated
zero-delta adjusts all succeed and leave the endpoint map and the validated
group settings unchanged. -/
theorem c7_witness :
    (repeatAdjustZero 0 false Source.LOCAL_API 3 demoState).1 = true ∧
    (repeatAdjustZero 0 false Source.LOCAL_API 3 demoState).2.speakerMap =
      demoState.speakerMap ∧
    validateSpeakerSettingsConsistency
      (repeatAdjustZero 0 false Source.LOCAL_API 3 demoState).2 0 =
      some { volume := 10, mute := false } :=
  c7_adjust_zero_idempotent demoState 0 false Source.LOCAL_API
    { volume := 10, mute := false } (by decide) (by decide) (by decide) (by decide) 3

/-- Counterexample for C8: the claim as stated is false.  In
demoStateObsOrder observer 2 was registered first and observer 1 second
(registration order 2 then 1), yet after an accepted non-suppressed
setVolume the observers are invoked in the container's iteration order
1 then 2, which differs from the registration order, because m_observers is
a std::unordered_set whose iteration order is element-determined. -/
theorem c8_counterexample :
    (executeSetVolume 0 7 false Source.LOCAL_API demoStateObsOrder).1 = true ∧
    (executeSetVolume 0 7 false Source.LOCAL_API demoStateObsOrder).2.observerCalls.map
      (fun c => c.1) = [1, 2] ∧
    ([1, 2] : List ObserverId) ≠ [2, 1] := by
  decide

/-- Claim C8 (corrected): on every accepted non-suppressed settings change
the fan-out invokes every registered observer exactly once with the final
settings, in the observer container's element-determined iteration order
(not necessarily the registration order), and an observer whose callback
raises an error does not prevent the remaining observers from being
invoked: the batch of invocations does not depend on which observers'
callbacks raise. -/
theorem c8_observer_fanout_order (s : SpeakerSettings) (ev : String) (src : Source)
    (t : SpeakerType) (st : SpeakerManagerState) :
    (∀ thr : List ObserverId,
      (executeNotifySettingsChanged s ev src t
        { st with throwingObservers := thr }).observerCalls =
        st.observerCalls ++ st.observers.map (fun o => (o, src, t, s))) ∧
    (∀ (v : Int) (st' : SpeakerManagerState) (s' : SpeakerSettings),
      executeSetVolume t v false src st = (true, st') →
      validateSpeakerSettingsConsistency st' t = some s' →
      st'.observerCalls = st.observerCalls ++ st.observers.map
        (fun o => (o, src, t, s'))) := by
  constructor
  · intro thr
    simp [notify_def]
  · intro v st' s' h hval
    obtain ⟨s'', hval'', hev, hctx, hobs⟩ := setVolume_false_notify h
    rw [hval] at hval''
    have hs : s' = s'' := by injection hval''
    subst hs
    exact hobs

/-- Witness for the amended C8: on the demonstration engine, the fan-out
invokes the registered observers 1 and 2 each exactly once with the final
settings, regardless of observer 1's callback raising, and a successful
non-suppressed setVolume produces exactly that batch. -/
theorem c8_witness :
    (executeNotifySettingsChanged { volume := 7, mute := false } volumeChangedEvent
        Source.LOCAL_API 0 { demoState with throwingObservers := [1] }).observerCalls =
      demoState.observerCalls ++ demoState.observers.map
        (fun o => (o, Source.LOCAL_API, 0,
          ({ volume := 7, mute := false } : SpeakerSettings))) ∧
    (executeSetVolume 0 7 false Source.LOCAL_API demoState).2.observerCalls =
      demoState.observerCalls ++ demoState.observers.map
        (fun o => (o, Source.LOCAL_API, 0,
          ({ volume := 7, mute := false } : SpeakerSettings))) :=
  ⟨(c8_observer_fanout_order { volume := 7, mute := false } volumeChangedEvent
      Source.LOCAL_API 0 demoState).1 [1],
   (c8_observer_fanout_order { volume := 7, mute := false } volumeChangedEvent
      Source.LOCAL_API 0 demoState).2 7
     (executeSetVolume 0 7 false Source.LOCAL_API demoState).2
     { volume := 7, mute := false } (by decide) (by decide)⟩

theorem insertObserver_idem (o : ObserverId) :
    ∀ l : List ObserverId, insertObserver o (insertObserver o l) = insertObserver o l
  | [] => by simp [insertObserver]
  | x :: xs => by
    by_cases h1 : o < x
    · simp [insertObserver, h1, lt_irrefl]
    · by_cases h2 : o = x
      · simp [insertObserver, h1, h2]
      · simp [insertObserver, h1, h2, insertObserver_idem o xs]

theorem filter_eq_nil_of_gt (o : ObserverId) :
    ∀ l : List ObserverId, (∀ y ∈ l, o < y) → l.filter (fun x => x == o) = []
  | [], _ => rfl
  | x :: xs, h => by
    have hx := h x (List.mem_cons_self _ _)
    have hxo : (x == o) = false := by
      simp only [beq_eq_false_iff_ne, ne_eq]
      exact ne_of_gt hx
    simp [hxo, filter_eq_nil_of_gt o xs (fun y hy => h y (List.mem_cons_of_mem _ hy))]

theorem insert_filter_count_one (o : ObserverId) :
    ∀ l : List ObserverId, l.Pairwise (fun a b => a < b) →
      ((insertObserver o l).filter (fun x => x == o)).length = 1
  | [], _ => by simp [insertObserver]
  | x :: xs, hp => by
    obtain ⟨hx, hxs⟩ := List.pairwise_cons.1 hp
    by_cases h1 : o < x
    · have hnil : (x :: xs).filter (fun y => y == o) = [] := by
        apply filter_eq_nil_of_gt
        intro y hy
        rcases List.mem_cons.1 hy with rfl | hy'
        · exact h1
        · exact lt_trans h1 (hx y hy')
      simp [insertObserver, h1, hnil]
    · by_cases h2 : o = x
      · subst h2
        have hnil : xs.filter (fun y => y == o) = [] :=
          filter_eq_nil_of_gt o xs (fun y hy => hx y hy)
        simp [insertObserver, h1, hnil]
      · have hxo : (x == o) = false := by
          simp only [beq_eq_false_iff_ne, ne_eq]
          exact fun he => h2 he.symm
        simp [insertObserver, h1, h2, hxo, insert_filter_count_one o xs hxs]

theorem map_filter_length (src : Source) (t : SpeakerType) (s : SpeakerSettings)
    (o : ObserverId) :
    ∀ obs : List ObserverId,
      ((obs.map (fun o' => (o', src, t, s))).filter (fun c => c.1 == o)).length =
        (obs.filter (fun x => x == o)).length
  | [] => rfl
  | x :: xs => by
    cases hxo : (x == o) with
    | true => simp [hxo, map_filter_length src t s o xs]
    | false => simp [hxo, map_filter_length src t s o xs]

/-- Claim C9 (implicit): registering the same observer identity more than
once through addSpeakerManagerObserver leaves exactly one registration in
the observer set, so an accepted non-suppressed change invokes that
observer exactly once, not once per duplicate add. -/
theorem c9_duplicate_observer_add_once (st : SpeakerManagerState) (o : ObserverId)
    (s : SpeakerSettings) (ev : String) (src : Source) (t : SpeakerType)
    (hsorted : st.observers.Pairwise (fun a b => a < b)) :
    (addSpeakerManagerObserver o (addSpeakerManagerObserver o st)).observers =
      (addSpeakerManagerObserver o st).observers ∧
    ((executeNotifySettingsChanged s ev src t
        (addSpeakerManagerObserver o (addSpeakerManagerObserver o st))).observerCalls.filter
      (fun c => c.1 == o)).length =
      (st.observerCalls.filter (fun c => c.1 == o)).length + 1 := by
  constructor
  · show insertObserver o (insertObserver o st.observers) = insertObserver o st.observers
    exact insertObserver_idem o st.observers
  · show ((st.observerCalls ++
        (insertObserver o (insertObserver o st.observers)).map
          (fun o' => (o', src, t, s))).filter (fun c => c.1 == o)).length = _
    rw [insertObserver_idem o st.observers, List.filter_append, List.length_append,
      map_filter_length, insert_filter_count_one o st.observers hsorted]

/-- Witness for C9: adding observer 5 twice to the demonstration engine
leaves one registration, and a notification invokes it exactly once. -/
theorem c9_witness :
    (addSpeakerManagerObserver 5 (addSpeakerManagerObserver 5 demoState)).observers =
      (addSpeakerManagerObserver 5 demoState).observers ∧
    ((executeNotifySettingsChanged { volume := 7, mute := false } volumeChangedEvent
        Source.LOCAL_API 0
        (addSpeakerManagerObserver 5 (addSpeakerManagerObserver 5 demoState))).observerCalls.filter
      (fun c => c.1 == 5)).length =
      (demoState.observerCalls.filter (fun c => c.1 == 5)).length + 1 :=
  c9_duplicate_observer_add_once demoState 5 { volume := 7, mute := false }
    volumeChangedEvent Source.LOCAL_API 0 (by decide)

/-- Claim C10 (implicit): create validates its collaborators: it returns
null exactly when contextManager, messageSender or
exceptionEncounteredSender is null, constructing nothing in that case;
when all three are present it constructs an engine with the given speakers
registered, no observers and no emitted side effects. -/
theorem c10_create_validates_collaborators (speakers : List (SpeakerType × Speaker))
    (cm ms es : Option Nat) :
    (create speakers cm ms es = none ↔ (cm = none ∨ ms = none ∨ es = none)) ∧
    (∀ e : SpeakerManagerState, create speakers cm ms es = some e →
      e.speakerMap = speakers ∧ e.observers = [] ∧ e.contextUpdates = [] ∧
      e.events = [] ∧ e.observerCalls = [] ∧
      e.minUnmuteVolume = MIN_UNMUTE_VOLUME ∧ e.minVolume = AVS_SET_VOLUME_MIN ∧
      e.maxVolume = AVS_SET_VOLUME_MAX) := by
  constructor
  · cases cm <;> cases ms <;> cases es <;> simp [create]
  · intro e he
    cases cm <;> cases ms <;> cases es <;> simp [create] at he
    rw [← he]
    exact ⟨rfl, rfl, rfl, rfl, rfl, rfl, rfl, rfl⟩

/-- Witness for C10: create with a null contextManager returns null, and
create with all collaborators present returns the freshly constructed
engine with the given speaker registered and no side effects. -/
theorem c10_witness :
    create [(0, mkSpeaker 1 false)] none (some 0) (some 0) = none ∧
    (createdState.speakerMap = [(0, mkSpeaker 1 false)] ∧
      createdState.observers = [] ∧ createdState.contextUpdates = [] ∧
      createdState.events = [] ∧ createdState.observerCalls = [] ∧
      createdState.minUnmuteVolume = MIN_UNMUTE_VOLUME ∧
      createdState.minVolume = AVS_SET_VOLUME_MIN ∧
      createdState.maxVolume = AVS_SET_VOLUME_MAX) :=
  ⟨(c10_create_validates_collaborators [(0, mkSpeaker 1 false)] none (some 0)
      (some 0)).1.2 (Or.inl rfl),
   (c10_create_validates_collaborators [(0, mkSpeaker 1 false)] (some 0) (some 0)
      (some 0)).2 createdState (by decide)⟩

end speakerManager
